import Mathlib

/-!
# sepgfx: meshes, transforms, uniform cache and the draw call

A shallow embedding of `src/src/meshes.c`, `src/src/shaders.c` and the headers
`src/include/sf/gfx/meshes.h`, `src/include/sf/gfx/shaders.h`.

Conventions of the embedding

* The process-wide GL context is a trace: the list of GL calls issued so far.
  A function that talks to GL takes the trace and returns the extended trace.
* A `float` that is only stored, compared with `memcmp` and uploaded (the
  fields of `sf_vertex`) is kept as its 32-bit pattern, a `Nat`.
* A `float` that is computed with (`mat4`, `sf_transform`) is an element of a
  field `R` with exact arithmetic; `cosf`, `sinf`, `sqrtf` and the constant pi
  come from `<math.h>` and are taken as the record `Libm R`.
* A pointer that may be `NULL` is an `Option`.
-/

namespace Sepgfx

/-! ## Plain data (`sf/math.h`, `shaders.h`, `meshes.h`) -/

/-- Two floats, `sf_vec2` of `sf/math.h`. -/
structure sf_vec2 (F : Type) where
  x : F
  y : F
deriving DecidableEq, Repr

/-- Three floats, `sf_vec3` of `sf/math.h`. -/
structure sf_vec3 (F : Type) where
  x : F
  y : F
  z : F
deriving DecidableEq, Repr

/-- The `rgba` view of the union `sf_glcolor` of `shaders.h`. -/
structure sf_glcolor (F : Type) where
  r : F
  g : F
  b : F
  a : F
deriving DecidableEq, Repr

/-- The packed struct `sf_vertex` of `meshes.h`; every float is its 32-bit pattern. -/
structure sf_vertex where
  position : sf_vec3 Nat
  uv : sf_vec2 Nat
  color : sf_glcolor Nat
deriving DecidableEq, Repr

/-- The four bytes of a 32-bit word, lowest address first. -/
def word_bytes (w : Nat) : List Nat :=
  [w % 256, w / 256 % 256, w / 65536 % 256, w / 16777216 % 256]

/-- The `sizeof(sf_vertex)` = 36 bytes of a vertex in memory order
(`#pragma pack(push, 1)`: position, uv, color, no padding). -/
def sf_vertex.bytes (v : sf_vertex) : List Nat :=
  word_bytes v.position.x ++ word_bytes v.position.y ++ word_bytes v.position.z ++
  word_bytes v.uv.x ++ word_bytes v.uv.y ++
  word_bytes v.color.r ++ word_bytes v.color.g ++ word_bytes v.color.b ++ word_bytes v.color.a

/-- The C library `memcmp` over two byte sequences of the same length: zero when
all bytes agree, otherwise the sign of the first difference. -/
def memcmp : List Nat → List Nat → Int
  | a :: as, b :: bs => if a < b then -1 else if b < a then 1 else memcmp as bs
  | _, _ => 0

/-! ## Containers (`sf/containers/vec.h`, `sf/containers/map.h`) -/

/-- The push of `sf/containers/vec.h`: the element goes to the end, `count` grows by one. -/
def sf_vec_push {T : Type} (vec : List T) (x : T) : List T := vec ++ [x]

/-- Modelled from the spec: the generic map of `sf/containers/map.h`, which is
not part of the sources. "A mapping from Vertex to index used only to detect
duplicates", "per-shader mapping from uniform name to GPU location": a
collection of (key, value) entries in insertion order. Which stored key a
looked-up key meets is decided by the `EQUAL_FN` the instantiating header
supplies, used as a C truth value (nonzero: the keys are taken to be equal),
as with `sf_str_eq` for `sf_uniform_map`. -/
abbrev sf_map (K V : Type) := List (K × V)

/-- Modelled from the spec: `<MAP_NAME>_new`, the empty map. -/
def sf_map_new {K V : Type} : sf_map K V := []

/-- Modelled from the spec: `<MAP_NAME>_get`, the value of the first entry whose
key `EQUAL_FN` reports equal to `key`, or the error result when there is none. -/
def sf_map_get {K V : Type} (EQUAL_FN : K → K → Bool) : sf_map K V → K → Option V
  | [], _ => none
  | (k, v) :: rest, key => if EQUAL_FN k key then some v else sf_map_get EQUAL_FN rest key

/-- Modelled from the spec: `<MAP_NAME>_set`, overwrite the value of the entry
whose key `EQUAL_FN` reports equal to `key`, or add a new entry when there is none. -/
def sf_map_set {K V : Type} (EQUAL_FN : K → K → Bool) : sf_map K V → K → V → sf_map K V
  | [], key, value => [(key, value)]
  | (k, v) :: rest, key, value =>
      if EQUAL_FN k key then (k, value) :: rest
      else (k, v) :: sf_map_set EQUAL_FN rest key value

/-- The macro of `meshes.h`:
`#define EQUAL_FN(v1, v2) (memcmp(&v1, &v2, sizeof(sf_vertex)))`. -/
def sf_index_cache_EQUAL_FN (v1 v2 : sf_vertex) : Int := memcmp v1.bytes v2.bytes

/-- The map `sf_index_cache` of `meshes.h`: `MAP_K sf_vertex`, `MAP_V int32_t`. -/
abbrev sf_index_cache := sf_map sf_vertex Int

/-- The instance `sf_index_cache_get`: the `int` that `EQUAL_FN` yields is the truth value. -/
def sf_index_cache_get (cache : sf_index_cache) (key : sf_vertex) : Option Int :=
  sf_map_get (fun v1 v2 => decide (sf_index_cache_EQUAL_FN v1 v2 ≠ 0)) cache key

/-- The instance `sf_index_cache_set`. -/
def sf_index_cache_set (cache : sf_index_cache) (key : sf_vertex) (value : Int) : sf_index_cache :=
  sf_map_set (fun v1 v2 => decide (sf_index_cache_EQUAL_FN v1 v2 ≠ 0)) cache key value

/-- The cast `(uint32_t)n`. -/
def to_uint32 (n : Int) : Int := n % 4294967296

/-- The conversion of a value to the `int32_t` element type of `sf_index_vec`. -/
def to_int32 (n : Int) : Int :=
  if n % 4294967296 < 2147483648 then n % 4294967296 else n % 4294967296 - 4294967296

/-! ## cglm (`cglm/cglm.h`): column-major 4x4 matrices -/

/-- The `vec3` of cglm, `float[3]`. -/
structure vec3 (R : Type) where
  x : R
  y : R
  z : R
deriving DecidableEq, Repr

/-- The `vec4` of cglm, `float[4]`. -/
structure vec4 (R : Type) where
  x : R
  y : R
  z : R
  w : R
deriving DecidableEq, Repr

/-- The `mat4` of cglm, `float[4][4]` in column-major order: `m0 .. m3` are the
columns `m[0] .. m[3]`, and `m[c][r]` is row `r` of column `c`. -/
structure mat4 (R : Type) where
  m0 : vec4 R
  m1 : vec4 R
  m2 : vec4 R
  m3 : vec4 R
deriving DecidableEq, Repr

/-- What `<math.h>` supplies to cglm: `cosf`, `sinf`, `sqrtf` and the constant `GLM_PIf`. -/
structure Libm (R : Type) where
  cosf : R → R
  sinf : R → R
  sqrtf : R → R
  GLM_PIf : R

section cglm
variable {R : Type} [Field R] [DecidableEq R]

/-- The cglm function `glm_vec4_scale`: every component times `s`. -/
def glm_vec4_scale (v : vec4 R) (s : R) : vec4 R :=
  ⟨v.x * s, v.y * s, v.z * s, v.w * s⟩

/-- The cglm function `glm_vec4_muladds`: `dest += a * s`. -/
def glm_vec4_muladds (a : vec4 R) (s : R) (dest : vec4 R) : vec4 R :=
  ⟨dest.x + a.x * s, dest.y + a.y * s, dest.z + a.z * s, dest.w + a.w * s⟩

/-- The cglm function `glm_mat4_identity`. -/
def glm_mat4_identity : mat4 R :=
  ⟨⟨1, 0, 0, 0⟩, ⟨0, 1, 0, 0⟩, ⟨0, 0, 1, 0⟩, ⟨0, 0, 0, 1⟩⟩

/-- The cglm function `glm_mat4_copy`. -/
def glm_mat4_copy (mat : mat4 R) : mat4 R := mat

/-- The cglm function `glm_scale(m, v)`: columns 0, 1, 2 of `m` are scaled by
`v[0]`, `v[1]`, `v[2]`; column 3 is kept. -/
def glm_scale (m : mat4 R) (v : vec3 R) : mat4 R :=
  ⟨glm_vec4_scale m.m0 v.x, glm_vec4_scale m.m1 v.y, glm_vec4_scale m.m2 v.z, m.m3⟩

/-- The cglm function `glm_translate(m, v)`:
`m[3] += m[0] * v[0]; m[3] += m[1] * v[1]; m[3] += m[2] * v[2]`. -/
def glm_translate (m : mat4 R) (v : vec3 R) : mat4 R :=
  ⟨m.m0, m.m1, m.m2,
    glm_vec4_muladds m.m2 v.z (glm_vec4_muladds m.m1 v.y (glm_vec4_muladds m.m0 v.x m.m3))⟩

/-- The cglm function `glm_rad`: degrees to radians. -/
def glm_rad (L : Libm R) (deg : R) : R := deg * L.GLM_PIf / 180

/-- The cglm function `glm_vec3_norm`: the square root of the dot product of `v` with itself. -/
def glm_vec3_norm (L : Libm R) (v : vec3 R) : R :=
  L.sqrtf (v.x * v.x + v.y * v.y + v.z * v.z)

/-- The cglm function `glm_vec3_scale`. -/
def glm_vec3_scale (v : vec3 R) (s : R) : vec3 R := ⟨v.x * s, v.y * s, v.z * s⟩

/-- The cglm function `glm_vec3_normalize_to`: the zero vector when the norm is
zero, otherwise `v` scaled by `1 / norm`. -/
def glm_vec3_normalize_to (L : Libm R) (v : vec3 R) : vec3 R :=
  if glm_vec3_norm L v = 0 then ⟨0, 0, 0⟩ else glm_vec3_scale v (1 / glm_vec3_norm L v)

/-- The cglm function `glm_rotate_make(m, angle, axis)`: the rotation matrix
about `axis` by `angle` radians (axis-angle form). -/
def glm_rotate_make (L : Libm R) (angle : R) (axis : vec3 R) : mat4 R :=
  let c := L.cosf angle
  let axisn := glm_vec3_normalize_to L axis
  let v := glm_vec3_scale axisn (1 - c)
  let vs := glm_vec3_scale axisn (L.sinf angle)
  let c0 := glm_vec3_scale axisn v.x
  let c1 := glm_vec3_scale axisn v.y
  let c2 := glm_vec3_scale axisn v.z
  ⟨⟨c0.x + c, c0.y + vs.z, c0.z - vs.y, 0⟩,
   ⟨c1.x - vs.z, c1.y + c, c1.z + vs.x, 0⟩,
   ⟨c2.x + vs.y, c2.y - vs.x, c2.z + c, 0⟩,
   ⟨0, 0, 0, 1⟩⟩

/-- The cglm function `glm_mul_rot(m1, m2, dest)`: `m1` times the rotation `m2`
(only the upper-left 3x3 block of `m2` is read; column 3 of `m1` is copied). -/
def glm_mul_rot (m1 m2 : mat4 R) : mat4 R :=
  ⟨⟨m1.m0.x * m2.m0.x + m1.m1.x * m2.m0.y + m1.m2.x * m2.m0.z,
    m1.m0.y * m2.m0.x + m1.m1.y * m2.m0.y + m1.m2.y * m2.m0.z,
    m1.m0.z * m2.m0.x + m1.m1.z * m2.m0.y + m1.m2.z * m2.m0.z,
    m1.m0.w * m2.m0.x + m1.m1.w * m2.m0.y + m1.m2.w * m2.m0.z⟩,
   ⟨m1.m0.x * m2.m1.x + m1.m1.x * m2.m1.y + m1.m2.x * m2.m1.z,
    m1.m0.y * m2.m1.x + m1.m1.y * m2.m1.y + m1.m2.y * m2.m1.z,
    m1.m0.z * m2.m1.x + m1.m1.z * m2.m1.y + m1.m2.z * m2.m1.z,
    m1.m0.w * m2.m1.x + m1.m1.w * m2.m1.y + m1.m2.w * m2.m1.z⟩,
   ⟨m1.m0.x * m2.m2.x + m1.m1.x * m2.m2.y + m1.m2.x * m2.m2.z,
    m1.m0.y * m2.m2.x + m1.m1.y * m2.m2.y + m1.m2.y * m2.m2.z,
    m1.m0.z * m2.m2.x + m1.m1.z * m2.m2.y + m1.m2.z * m2.m2.z,
    m1.m0.w * m2.m2.x + m1.m1.w * m2.m2.y + m1.m2.w * m2.m2.z⟩,
   m1.m3⟩

/-- The cglm function `glm_rotate(m, angle, axis)`:
`glm_rotate_make(rot, angle, axis); glm_mul_rot(m, rot, m)`. -/
def glm_rotate (L : Libm R) (m : mat4 R) (angle : R) (axis : vec3 R) : mat4 R :=
  glm_mul_rot m (glm_rotate_make L angle axis)

/-- One column of `glm_mat4_mul`: the combination of the columns of `m1` with
the entries of the column `b` of `m2`. -/
def glm_mat4_mulv (m1 : mat4 R) (b : vec4 R) : vec4 R :=
  ⟨m1.m0.x * b.x + m1.m1.x * b.y + m1.m2.x * b.z + m1.m3.x * b.w,
   m1.m0.y * b.x + m1.m1.y * b.y + m1.m2.y * b.z + m1.m3.y * b.w,
   m1.m0.z * b.x + m1.m1.z * b.y + m1.m2.z * b.z + m1.m3.z * b.w,
   m1.m0.w * b.x + m1.m1.w * b.y + m1.m2.w * b.z + m1.m3.w * b.w⟩

/-- The cglm function `glm_mat4_mul(m1, m2, dest)`: `dest = m1 * m2`. -/
def glm_mat4_mul (m1 m2 : mat4 R) : mat4 R :=
  ⟨glm_mat4_mulv m1 m2.m0, glm_mat4_mulv m1 m2.m1, glm_mat4_mulv m1 m2.m2, glm_mat4_mulv m1 m2.m3⟩

/-- The cglm function `glm_mat4_scale_p`: every entry times `s`. -/
def glm_mat4_scale_p (m : mat4 R) (s : R) : mat4 R :=
  ⟨glm_vec4_scale m.m0 s, glm_vec4_scale m.m1 s, glm_vec4_scale m.m2 s, glm_vec4_scale m.m3 s⟩

/-- The matrix of cofactors that `glm_mat4_inv` fills `dest` with before it
divides by the determinant. -/
def glm_mat4_inv_cofactors (mat : mat4 R) : mat4 R :=
  let a := mat.m0.x; let b := mat.m0.y; let c := mat.m0.z; let d := mat.m0.w
  let e := mat.m1.x; let f := mat.m1.y; let g := mat.m1.z; let h := mat.m1.w
  let i := mat.m2.x; let j := mat.m2.y; let k := mat.m2.z; let l := mat.m2.w
  let m := mat.m3.x; let n := mat.m3.y; let o := mat.m3.z; let p := mat.m3.w
  let t0 := k * p - o * l; let t1 := j * p - n * l; let t2 := j * o - n * k
  let t3 := i * p - m * l; let t4 := i * o - m * k; let t5 := i * n - m * j
  let u0 := g * p - o * h; let u1 := f * p - n * h; let u2 := f * o - n * g
  let u3 := e * p - m * h; let u4 := e * o - m * g; let u5 := e * n - m * f
  let w0 := g * l - k * h; let w1 := f * l - j * h; let w2 := f * k - j * g
  let w3 := e * l - i * h; let w4 := e * k - i * g; let w5 := e * j - i * f
  ⟨⟨f * t0 - g * t1 + h * t2, -(b * t0 - c * t1 + d * t2),
    b * u0 - c * u1 + d * u2, -(b * w0 - c * w1 + d * w2)⟩,
   ⟨-(e * t0 - g * t3 + h * t4), a * t0 - c * t3 + d * t4,
    -(a * u0 - c * u3 + d * u4), a * w0 - c * w3 + d * w4⟩,
   ⟨e * t1 - f * t3 + h * t5, -(a * t1 - b * t3 + d * t5),
    a * u1 - b * u3 + d * u5, -(a * w1 - b * w3 + d * w5)⟩,
   ⟨-(e * t2 - f * t4 + g * t5), a * t2 - b * t4 + c * t5,
    -(a * u2 - b * u4 + c * u5), a * w2 - b * w4 + c * w5⟩⟩

/-- The determinant as `glm_mat4_inv` computes it:
`a * dest[0][0] + b * dest[1][0] + c * dest[2][0] + d * dest[3][0]`. -/
def glm_mat4_inv_det (mat : mat4 R) : R :=
  let dest := glm_mat4_inv_cofactors mat
  mat.m0.x * dest.m0.x + mat.m0.y * dest.m1.x + mat.m0.z * dest.m2.x + mat.m0.w * dest.m3.x

/-- The cglm function `glm_mat4_inv(mat, dest)`: the cofactors times
`1.0f / determinant`. With a zero determinant the C code divides by zero and
the entries are not finite numbers: that outcome is `none`. -/
def glm_mat4_inv (mat : mat4 R) : Option (mat4 R) :=
  if glm_mat4_inv_det mat = 0 then none
  else some (glm_mat4_scale_p (glm_mat4_inv_cofactors mat) (1 / glm_mat4_inv_det mat))

end cglm

/-! ## Transforms (`sf/math.h`, `shaders.c`) -/

/-- The struct `sf_transform` of `sf/math.h`: position, rotation (Euler angles in
degrees), scale, and the `parent` pointer (`NULL` is `none`). -/
inductive sf_transform (R : Type) where
  | mk (position rotation scale : sf_vec3 R) (parent : Option (sf_transform R))

/-- The field `position`. -/
def sf_transform.position {R : Type} : sf_transform R → sf_vec3 R
  | .mk position _ _ _ => position

/-- The field `rotation`. -/
def sf_transform.rotation {R : Type} : sf_transform R → sf_vec3 R
  | .mk _ rotation _ _ => rotation

/-- The field `scale`. -/
def sf_transform.scale {R : Type} : sf_transform R → sf_vec3 R
  | .mk _ _ scale _ => scale

/-- The field `parent`. -/
def sf_transform.parent {R : Type} : sf_transform R → Option (sf_transform R)
  | .mk _ _ _ parent => parent

section transforms
variable {R : Type} [Field R] [DecidableEq R]

/-- The function `sf_transform_model` of `shaders.c`. -/
def sf_transform_model (L : Libm R) : sf_transform R → mat4 R
  | .mk position rotation scale parent =>
    let local0 : mat4 R := glm_mat4_identity
    let local1 := glm_scale local0 ⟨scale.x, scale.y, scale.z⟩
    match parent with
    | some p =>
      let local2 := glm_translate local1 ⟨position.x, position.y, position.z⟩
      let local3 := glm_rotate L local2 (glm_rad L rotation.x) ⟨1, 0, 0⟩
      let local4 := glm_rotate L local3 (glm_rad L rotation.y) ⟨0, 1, 0⟩
      let local5 := glm_rotate L local4 (glm_rad L rotation.z) ⟨0, 0, 1⟩
      let parent_matrix := sf_transform_model L p
      glm_mat4_mul parent_matrix local5
    | none =>
      let local2 := glm_rotate L local1 (glm_rad L rotation.x) ⟨1, 0, 0⟩
      let local3 := glm_rotate L local2 (glm_rad L rotation.y) ⟨0, 1, 0⟩
      let local4 := glm_rotate L local3 (glm_rad L rotation.z) ⟨0, 0, 1⟩
      let local5 := glm_translate local4 ⟨position.x, position.y, position.z⟩
      glm_mat4_copy local5

/-- The function `sf_transform_view` of `shaders.c`:
`sf_transform_model(out, transform); glm_mat4_inv(out, out)`. -/
def sf_transform_view (L : Libm R) (transform : sf_transform R) : Option (mat4 R) :=
  glm_mat4_inv (sf_transform_model L transform)

end transforms

/-! ## The GL context as a trace of calls -/

/-- The GL enumerants that the calls below pass. -/
inductive GLenum where
  | GL_ARRAY_BUFFER
  | GL_ELEMENT_ARRAY_BUFFER
  | GL_DYNAMIC_DRAW
  | GL_STATIC_DRAW
  | GL_FRAMEBUFFER
  | GL_TEXTURE0
  | GL_TEXTURE_2D
  | GL_TRIANGLES
  | GL_FLOAT
  | GL_UNSIGNED_INT
deriving DecidableEq, Repr

/-- What the `data` pointer of `glBufferData` points at. -/
inductive BufferData where
  | vertices (data : List sf_vertex)
  | indices (data : List Int)
deriving DecidableEq, Repr

/-- One call into the GL driver, with its arguments. -/
inductive GLCall (R : Type) where
  | glGenVertexArrays (n : Nat) (array : Nat)
  | glGenBuffers (n : Nat) (buffer : Nat)
  | glEnableVertexAttribArray (index : Nat)
  | glVertexAttribPointer (index : Nat) (size : Nat) (type : GLenum) (normalized : Bool)
      (stride : Nat) (pointer : Nat)
  | glGetError
  | glBindVertexArray (array : Nat)
  | glBindBuffer (target : GLenum) (buffer : Nat)
  | glBufferData (target : GLenum) (size : Nat) (data : BufferData) (usage : GLenum)
  | glUseProgram (program : Nat)
  | glGetUniformLocation (program : Nat) (name : String)
  | glUniform1f (location : Int) (v0 : R)
  | glUniform1i (location : Int) (v0 : Int)
  | glUniform2f (location : Int) (v0 v1 : R)
  | glUniform3f (location : Int) (v0 v1 v2 : R)
  | glUniformMatrix4fv (location : Int) (count : Nat) (transpose : Bool) (value : mat4 R)
  | glBindFramebuffer (target : GLenum) (framebuffer : Nat)
  | glViewport (x y width height : Int)
  | glActiveTexture (texture : GLenum)
  | glBindTexture (target : GLenum) (texture : Nat)
  | glDrawElements (mode : GLenum) (count : Nat) (type : GLenum) (indices : Nat)
deriving DecidableEq, Repr

/-- The GL context: every call issued so far, oldest first. -/
abbrev GLTrace (R : Type) := List (GLCall R)

/-- The answers of the driver that the code reads back: `glGetUniformLocation`
per program and uniform name (negative: the program has no such uniform). -/
structure GLDriver where
  glGetUniformLocation : Nat → String → Int

/-! ## Meshes (`meshes.h`, `meshes.c`) -/

/-- The bit `SF_MESH_ACTIVE`. -/
def SF_MESH_ACTIVE : Nat := 1

/-- The bit `SF_MESH_VISIBLE`. -/
def SF_MESH_VISIBLE : Nat := 2

/-- The struct `sf_mesh` of `meshes.h`. The vectors `sf_vertex_vec` and
`sf_index_vec` are the lists of their `count` elements. -/
structure sf_mesh where
  vao : Nat
  vbo : Nat
  ebo : Nat
  vertices : List sf_vertex
  indices : List Int
  cache : sf_index_cache
  flags : Nat
deriving DecidableEq, Repr

/-- The macro `CLEAN_BIND` of `meshes.c`. -/
def CLEAN_BIND : Bool := true

section meshes
variable {R : Type}

/-- The function `sf_mesh_new` of `meshes.c`; `vao`, `vbo`, `ebo` are the names
the driver generates. `sf_opengl_log` at its end reads `glGetError` once when
there is no pending error. -/
def sf_mesh_new (gl : GLTrace R) (vao vbo ebo : Nat) : sf_mesh × GLTrace R :=
  let mesh : sf_mesh :=
    { vao := vao, vbo := vbo, ebo := ebo,
      vertices := [], indices := [], cache := sf_map_new,
      flags := SF_MESH_ACTIVE ||| SF_MESH_VISIBLE }
  let gl := gl ++
    [.glGenVertexArrays 1 vao, .glGenBuffers 1 vbo, .glGenBuffers 1 ebo,
     .glBindVertexArray mesh.vao,
     .glBindBuffer .GL_ARRAY_BUFFER mesh.vbo,
     .glBindBuffer .GL_ELEMENT_ARRAY_BUFFER mesh.ebo,
     .glEnableVertexAttribArray 0,
     .glVertexAttribPointer 0 3 .GL_FLOAT false (9 * 4) 0,
     .glEnableVertexAttribArray 1,
     .glVertexAttribPointer 1 2 .GL_FLOAT false (9 * 4) (3 * 4),
     .glEnableVertexAttribArray 2,
     .glVertexAttribPointer 2 4 .GL_FLOAT false (9 * 4) (5 * 4)]
  let gl := if CLEAN_BIND then gl ++ [.glBindVertexArray 0, .glBindBuffer .GL_ARRAY_BUFFER 0] else gl
  (mesh, gl ++ [.glGetError])

/-- The function `sf_mesh_update` of `meshes.c`: both buffers are uploaded in full. -/
def sf_mesh_update (gl : GLTrace R) (mesh : sf_mesh) : GLTrace R :=
  let gl := gl ++
    [.glBindVertexArray mesh.vao,
     .glBindBuffer .GL_ARRAY_BUFFER mesh.vbo,
     .glBufferData .GL_ARRAY_BUFFER (mesh.vertices.length * 36)
        (.vertices mesh.vertices) .GL_DYNAMIC_DRAW,
     .glBindBuffer .GL_ELEMENT_ARRAY_BUFFER mesh.ebo,
     .glBufferData .GL_ELEMENT_ARRAY_BUFFER (mesh.indices.length * 4)
        (.indices mesh.indices) .GL_STATIC_DRAW]
  if CLEAN_BIND then gl ++ [.glBindBuffer .GL_ARRAY_BUFFER 0, .glBindVertexArray 0] else gl

/-- The function `_sf_mesh_add_vertex` of `meshes.c` (the single-vertex add step;
it makes no GL call). -/
def sf_mesh_add_vertex_step (mesh : sf_mesh) (vertex : sf_vertex) : sf_mesh :=
  match sf_index_cache_get mesh.cache vertex with
  | some ok => { mesh with indices := sf_vec_push mesh.indices ok }
  | none =>
    let vertices := sf_vec_push mesh.vertices vertex
    let indices := sf_vec_push mesh.indices (to_int32 (to_uint32 vertices.length - 1))
    let cache := sf_index_cache_set mesh.cache vertex (to_int32 (to_uint32 vertices.length - 1))
    { mesh with vertices := vertices, indices := indices, cache := cache }

/-- The function `sf_mesh_add_vertex` of `meshes.c`. -/
def sf_mesh_add_vertex (gl : GLTrace R) (mesh : sf_mesh) (vertex : sf_vertex) :
    sf_mesh × GLTrace R :=
  let mesh := sf_mesh_add_vertex_step mesh vertex
  (mesh, sf_mesh_update gl mesh)

/-- The `for` loop of `sf_mesh_add_vertices`, entered with the counter at `i`.
Reading `vertices[i]` past the end of the array has no defined result: `none`. -/
def sf_mesh_add_vertices_loop (vertices : List sf_vertex) (count : Nat) (i : Nat)
    (mesh : sf_mesh) : Option sf_mesh :=
  if i < count then
    match vertices[i]? with
    | none => none
    | some v => sf_mesh_add_vertices_loop vertices count (i + 1) (sf_mesh_add_vertex_step mesh v)
  else some mesh
termination_by count - i

/-- The function `sf_mesh_add_vertices` of `meshes.c`. -/
def sf_mesh_add_vertices (gl : GLTrace R) (mesh : sf_mesh) (vertices : List sf_vertex)
    (count : Nat) : Option (sf_mesh × GLTrace R) :=
  match sf_mesh_add_vertices_loop vertices count 0 mesh with
  | none => none
  | some mesh => some (mesh, sf_mesh_update gl mesh)

end meshes

/-! ## Shaders and the uniform cache (`shaders.h`, `shaders.c`) -/

/-- The function `sf_str_eq` of `sf/str.h`, the `EQUAL_FN` of `sf_uniform_map`:
true when the two strings have the same characters. -/
def sf_str_eq (a b : String) : Bool := decide (a = b)

/-- The constant `SF_STR_EMPTY` of `sf/str.h`. -/
def SF_STR_EMPTY : String := ""

/-- The map `sf_uniform_map` of `shaders.h`: `MAP_K sf_str`, `MAP_V GLint`. -/
abbrev sf_uniform_map := sf_map String Int

/-- The instance `sf_uniform_map_get`. -/
def sf_uniform_map_get (map : sf_uniform_map) (key : String) : Option Int :=
  sf_map_get sf_str_eq map key

/-- The instance `sf_uniform_map_set`. -/
def sf_uniform_map_set (map : sf_uniform_map) (key : String) (value : Int) : sf_uniform_map :=
  sf_map_set sf_str_eq map key value

/-- The struct `sf_shader` of `shaders.h`. -/
structure sf_shader where
  path : String
  vertex : Nat
  fragment : Nat
  program : Nat
  uniforms : sf_uniform_map
deriving DecidableEq, Repr

/-- The `type` enum of `sf_shader_err`. -/
inductive sf_shader_err_type where
  | SF_SHADER_NOT_FOUND
  | SF_SHADER_COMPILE_ERROR
  | SF_SHADER_UNKNOWN_UNIFORM
deriving DecidableEq, Repr

/-- The struct `sf_shader_err` of `shaders.h`. -/
structure sf_shader_err where
  type : sf_shader_err_type
  compile_err : String
deriving DecidableEq, Repr

section shaders
variable {R : Type}

/-- The inline function `sf_shader_bind` of `shaders.h`. -/
def sf_shader_bind (gl : GLTrace R) (shader : sf_shader) : GLTrace R :=
  gl ++ [.glUseProgram shader.program]

/-- The function `sf_get_uniform` of `shaders.c`: the trace, the shader with its
cache, and the location (`none` is `gu_ex_err()`). -/
def sf_get_uniform (driver : GLDriver) (gl : GLTrace R) (shader : sf_shader) (name : String) :
    GLTrace R × sf_shader × Option Int :=
  let gl := sf_shader_bind gl shader
  match sf_uniform_map_get shader.uniforms name with
  | some ok => (gl, shader, some ok)
  | none =>
    let loc := driver.glGetUniformLocation shader.program name
    let gl := gl ++ [.glGetUniformLocation shader.program name]
    if loc < 0 then (gl, shader, none)
    else (gl, { shader with uniforms := sf_uniform_map_set shader.uniforms name loc }, some loc)

/-- The function `sf_shader_uniform_float` of `shaders.c`. -/
def sf_shader_uniform_float (driver : GLDriver) (gl : GLTrace R) (shader : sf_shader)
    (name : String) (value : R) : GLTrace R × sf_shader × Except sf_shader_err Unit :=
  match sf_get_uniform driver gl shader name with
  | (gl, shader, none) => (gl, shader, .error ⟨.SF_SHADER_UNKNOWN_UNIFORM, SF_STR_EMPTY⟩)
  | (gl, shader, some ok) => (gl ++ [.glUniform1f ok value], shader, .ok ())

/-- The function `sf_shader_uniform_int` of `shaders.c`. -/
def sf_shader_uniform_int (driver : GLDriver) (gl : GLTrace R) (shader : sf_shader)
    (name : String) (value : Int) : GLTrace R × sf_shader × Except sf_shader_err Unit :=
  match sf_get_uniform driver gl shader name with
  | (gl, shader, none) => (gl, shader, .error ⟨.SF_SHADER_UNKNOWN_UNIFORM, SF_STR_EMPTY⟩)
  | (gl, shader, some ok) => (gl ++ [.glUniform1i ok value], shader, .ok ())

/-- The function `sf_shader_uniform_vec2` of `shaders.c`. -/
def sf_shader_uniform_vec2 (driver : GLDriver) (gl : GLTrace R) (shader : sf_shader)
    (name : String) (value : sf_vec2 R) : GLTrace R × sf_shader × Except sf_shader_err Unit :=
  match sf_get_uniform driver gl shader name with
  | (gl, shader, none) => (gl, shader, .error ⟨.SF_SHADER_UNKNOWN_UNIFORM, SF_STR_EMPTY⟩)
  | (gl, shader, some ok) => (gl ++ [.glUniform2f ok value.x value.y], shader, .ok ())

/-- The function `sf_shader_uniform_vec3` of `shaders.c`. -/
def sf_shader_uniform_vec3 (driver : GLDriver) (gl : GLTrace R) (shader : sf_shader)
    (name : String) (value : sf_vec3 R) : GLTrace R × sf_shader × Except sf_shader_err Unit :=
  match sf_get_uniform driver gl shader name with
  | (gl, shader, none) => (gl, shader, .error ⟨.SF_SHADER_UNKNOWN_UNIFORM, SF_STR_EMPTY⟩)
  | (gl, shader, some ok) => (gl ++ [.glUniform3f ok value.x value.y value.z], shader, .ok ())

/-- The function `sf_shader_uniform_mat4` of `shaders.c`. -/
def sf_shader_uniform_mat4 (driver : GLDriver) (gl : GLTrace R) (shader : sf_shader)
    (name : String) (value : mat4 R) : GLTrace R × sf_shader × Except sf_shader_err Unit :=
  match sf_get_uniform driver gl shader name with
  | (gl, shader, none) => (gl, shader, .error ⟨.SF_SHADER_UNKNOWN_UNIFORM, SF_STR_EMPTY⟩)
  | (gl, shader, some ok) => (gl ++ [.glUniformMatrix4fv ok 1 false value], shader, .ok ())

end shaders

/-! ## Cameras, textures and the draw call (`camera.h`, `textures.h`, `meshes.c`) -/

/-- The `type` tag of a camera. -/
inductive sf_camera_type where
  | SF_CAMERA_RENDER_DEFAULT
  | SF_CAMERA_PERSPECTIVE
  | SF_CAMERA_ORTHOGRAPHIC
deriving DecidableEq, Repr

/-- The struct `sf_rgba` of `shaders.h`. -/
structure sf_rgba where
  r : Nat
  g : Nat
  b : Nat
  a : Nat
deriving DecidableEq, Repr

/-- Modelled from the spec: the struct `sf_camera` of `sf/gfx/camera.h`, which is
not among the sources. "A tagged variant: Perspective or Orthographic,
transform, projection matrix, viewport, target-surface, clear color, or the
distinguished DefaultRenderTarget variant"; the field names are the ones
`meshes.c` reads and initialises (`SF_RENDER_DEFAULT`). -/
structure sf_camera (R : Type) where
  type : sf_camera_type
  transform : sf_transform R
  projection : mat4 R
  viewport : sf_vec2 R
  framebuffer : Nat
  clear_color : sf_rgba

/-- The enum `sf_texture_type` of `textures.h`. -/
inductive sf_texture_type where
  | SF_TEXTURE_RGB
  | SF_TEXTURE_RGBA
  | SF_TEXTURE_DEPTH_STENCIL
deriving DecidableEq, Repr

/-- The struct `sf_texture` of `textures.h`. -/
structure sf_texture (R : Type) where
  type : sf_texture_type
  handle : Nat
  dimensions : sf_vec2 R

/-- The `type` enum of `sf_draw_err`. -/
inductive sf_draw_err_type where
  | SF_DRAW_SHADER_MISSING
  | SF_DRAW_UNKNOWN_UNIFORM
deriving DecidableEq, Repr

/-- The struct `sf_draw_err` of `meshes.h`. -/
structure sf_draw_err where
  type : sf_draw_err_type
  uniform_name : String
deriving DecidableEq, Repr

section draw
variable {R : Type} [Field R] [DecidableEq R]

/-- Lines 113 to 116 of `sf_mesh_draw`: the matrix `campos`, the model matrix
of a copy of the camera transform whose position is negated. -/
def sf_mesh_draw_campos (L : Libm R) (camera : sf_camera R) : mat4 R :=
  let cp := camera.transform
  let cp : sf_transform R :=
    .mk ⟨-cp.position.x, -cp.position.y, -cp.position.z⟩ cp.rotation cp.scale cp.parent
  sf_transform_model L cp

/-- Lines 128 to 135 of `sf_mesh_draw`: the binds, the draw and the unbinds.
`float_to_int` is the C conversion `(int)x` of a float. -/
def sf_mesh_draw_issue (float_to_int : R → Int) (gl : GLTrace R) (mesh : sf_mesh)
    (camera : sf_camera R) (texture : sf_texture R) : GLTrace R :=
  gl ++
    [.glBindFramebuffer .GL_FRAMEBUFFER camera.framebuffer,
     .glViewport 0 0 (float_to_int camera.viewport.x) (float_to_int camera.viewport.y),
     .glActiveTexture .GL_TEXTURE0,
     .glBindTexture .GL_TEXTURE_2D texture.handle,
     .glBindVertexArray mesh.vao,
     .glDrawElements .GL_TRIANGLES mesh.indices.length .GL_UNSIGNED_INT 0,
     .glBindVertexArray 0,
     .glBindFramebuffer .GL_FRAMEBUFFER 0]

/-- The function `sf_mesh_draw` of `meshes.c`. A `NULL` shader is `none`. The
result is the trace, the shader (its uniform cache may have grown) and the
`sf_draw_ex` value. -/
def sf_mesh_draw (L : Libm R) (float_to_int : R → Int) (driver : GLDriver) (gl : GLTrace R)
    (mesh : sf_mesh) (shader : Option sf_shader) (camera : sf_camera R)
    (transform : sf_transform R) (texture : sf_texture R) :
    GLTrace R × Option sf_shader × Except sf_draw_err Unit :=
  match shader with
  | none => (gl, none, .error ⟨.SF_DRAW_SHADER_MISSING, SF_STR_EMPTY⟩)
  | some shader =>
    let gl := sf_shader_bind gl shader
    match (if camera.type = .SF_CAMERA_RENDER_DEFAULT
           then sf_shader_uniform_mat4 driver gl shader "m_projection" glm_mat4_identity
           else sf_shader_uniform_mat4 driver gl shader "m_projection" camera.projection) with
    | (gl, shader, .error _) =>
      (gl, some shader, .error ⟨.SF_DRAW_UNKNOWN_UNIFORM, "m_projection"⟩)
    | (gl, shader, .ok _) =>
      let campos := sf_mesh_draw_campos L camera
      match sf_shader_uniform_mat4 driver gl shader "m_campos" campos with
      | (gl, shader, .error _) =>
        (gl, some shader, .error ⟨.SF_DRAW_UNKNOWN_UNIFORM, "m_campos"⟩)
      | (gl, shader, .ok _) =>
        let model := sf_transform_model L transform
        match sf_shader_uniform_mat4 driver gl shader "m_model" model with
        | (gl, shader, .error _) =>
          (gl, some shader, .error ⟨.SF_DRAW_UNKNOWN_UNIFORM, "m_model"⟩)
        | (gl, shader, .ok _) =>
          match sf_shader_uniform_int driver gl shader "t_sampler" 0 with
          | (gl, shader, .error _) =>
            (gl, some shader, .error ⟨.SF_DRAW_UNKNOWN_UNIFORM, "t_sampler"⟩)
          | (gl, shader, .ok _) =>
            (sf_mesh_draw_issue float_to_int gl mesh camera texture, some shader, .ok ())

end draw

/-! ## Specification-side notions

What the claims are stated with: the mathematical 4x4 matrix of a `mat4`, the
textbook scale, translation and axis rotation matrices, the location a uniform
name resolves to, the calls of a trace that change GL state, and the
first-occurrence rank of a vertex in a stream. -/

section spec_matrices
variable {R : Type} [Field R]

/-- The matrix a column-major `mat4` stands for: entry `(r, c)` is `m[c][r]`, so
that `to_matrix m` acts on column vectors. -/
def mat4.to_matrix (m : mat4 R) : Matrix (Fin 4) (Fin 4) R :=
  !![m.m0.x, m.m1.x, m.m2.x, m.m3.x;
     m.m0.y, m.m1.y, m.m2.y, m.m3.y;
     m.m0.z, m.m1.z, m.m2.z, m.m3.z;
     m.m0.w, m.m1.w, m.m2.w, m.m3.w]

/-- The scaling `S = scale(s)`. -/
def scale_matrix (s : sf_vec3 R) : Matrix (Fin 4) (Fin 4) R :=
  !![s.x, 0, 0, 0; 0, s.y, 0, 0; 0, 0, s.z, 0; 0, 0, 0, 1]

/-- The translation `T = translate(p)`. -/
def translate_matrix (p : sf_vec3 R) : Matrix (Fin 4) (Fin 4) R :=
  !![1, 0, 0, p.x; 0, 1, 0, p.y; 0, 0, 1, p.z; 0, 0, 0, 1]

/-- The rotation `Rx` about the X axis by `deg` degrees (converted to radians). -/
def rotate_x_matrix (L : Libm R) (deg : R) : Matrix (Fin 4) (Fin 4) R :=
  !![1, 0, 0, 0;
     0, L.cosf (deg * L.GLM_PIf / 180), -L.sinf (deg * L.GLM_PIf / 180), 0;
     0, L.sinf (deg * L.GLM_PIf / 180), L.cosf (deg * L.GLM_PIf / 180), 0;
     0, 0, 0, 1]

/-- The rotation `Ry` about the Y axis by `deg` degrees (converted to radians). -/
def rotate_y_matrix (L : Libm R) (deg : R) : Matrix (Fin 4) (Fin 4) R :=
  !![L.cosf (deg * L.GLM_PIf / 180), 0, L.sinf (deg * L.GLM_PIf / 180), 0;
     0, 1, 0, 0;
     -L.sinf (deg * L.GLM_PIf / 180), 0, L.cosf (deg * L.GLM_PIf / 180), 0;
     0, 0, 0, 1]

/-- The rotation `Rz` about the Z axis by `deg` degrees (converted to radians). -/
def rotate_z_matrix (L : Libm R) (deg : R) : Matrix (Fin 4) (Fin 4) R :=
  !![L.cosf (deg * L.GLM_PIf / 180), -L.sinf (deg * L.GLM_PIf / 180), 0, 0;
     L.sinf (deg * L.GLM_PIf / 180), L.cosf (deg * L.GLM_PIf / 180), 0, 0;
     0, 0, 1, 0;
     0, 0, 0, 1]

/-- The value `sf_mesh_draw` passes for `m_projection`: the identity for the
`SF_CAMERA_RENDER_DEFAULT` camera, the stored projection otherwise. -/
def sf_mesh_draw_projection (camera : sf_camera R) : mat4 R :=
  if camera.type = .SF_CAMERA_RENDER_DEFAULT then glm_mat4_identity else camera.projection

end spec_matrices

/-- Whether a GL call only selects the program or asks for a uniform location:
the calls that write no uniform, bind nothing and draw nothing. -/
def GLCall.is_lookup {R : Type} : GLCall R → Bool
  | .glUseProgram _ => true
  | .glGetUniformLocation _ _ => true
  | _ => false

/-- The calls of a trace that write a uniform, bind, set the viewport or draw. -/
def gl_effects {R : Type} (trace : GLTrace R) : GLTrace R :=
  trace.filter (fun c => !c.is_lookup)

/-- The location a uniform name resolves to for a shader: the cached location
when the name is in the cache, otherwise what the driver reports, and `none`
(unknown uniform) when the driver reports a negative location. -/
def sf_uniform_resolve (driver : GLDriver) (shader : sf_shader) (name : String) : Option Int :=
  match sf_uniform_map_get shader.uniforms name with
  | some ok => some ok
  | none =>
    if driver.glGetUniformLocation shader.program name < 0 then none
    else some (driver.glGetUniformLocation shader.program name)

/-- The first-occurrence rank of `v` in the stream `s`: the number of distinct
vertex values whose first occurrence precedes the first occurrence of `v`. -/
def first_occurrence_rank (s : List sf_vertex) (v : sf_vertex) : Nat :=
  ((s.take (s.indexOf v)).dedup).length

/-- The index buffer the claims expect for a stream: every submitted vertex
replaced by its first-occurrence rank. -/
def first_occurrence_ranks (s : List sf_vertex) : List Int :=
  s.map (fun v => (first_occurrence_rank s v : Int))

/-- One call of the uniform interface of `shaders.c` on a shader: a resolve
(`sf_get_uniform`) or one of the five setters, with its arguments. -/
inductive sf_uniform_call (R : Type) where
  | get_uniform (name : String)
  | uniform_float (name : String) (value : R)
  | uniform_int (name : String) (value : Int)
  | uniform_vec2 (name : String) (value : sf_vec2 R)
  | uniform_vec3 (name : String) (value : sf_vec3 R)
  | uniform_mat4 (name : String) (value : mat4 R)

/-- The trace and the shader after one call of the uniform interface. -/
def sf_uniform_call.run {R : Type} (driver : GLDriver) (gl : GLTrace R) (shader : sf_shader) :
    sf_uniform_call R → GLTrace R × sf_shader
  | .get_uniform name =>
    ((sf_get_uniform driver gl shader name).1, (sf_get_uniform driver gl shader name).2.1)
  | .uniform_float name value =>
    ((sf_shader_uniform_float driver gl shader name value).1,
     (sf_shader_uniform_float driver gl shader name value).2.1)
  | .uniform_int name value =>
    ((sf_shader_uniform_int driver gl shader name value).1,
     (sf_shader_uniform_int driver gl shader name value).2.1)
  | .uniform_vec2 name value =>
    ((sf_shader_uniform_vec2 driver gl shader name value).1,
     (sf_shader_uniform_vec2 driver gl shader name value).2.1)
  | .uniform_vec3 name value =>
    ((sf_shader_uniform_vec3 driver gl shader name value).1,
     (sf_shader_uniform_vec3 driver gl shader name value).2.1)
  | .uniform_mat4 name value =>
    ((sf_shader_uniform_mat4 driver gl shader name value).1,
     (sf_shader_uniform_mat4 driver gl shader name value).2.1)

/-- The trace and the shader after a sequence of calls of the uniform
interface, made one after the other on the same shader. -/
def sf_uniform_calls_run {R : Type} (driver : GLDriver) :
    GLTrace R → sf_shader → List (sf_uniform_call R) → GLTrace R × sf_shader
  | gl, shader, [] => (gl, shader)
  | gl, shader, call :: rest =>
    sf_uniform_calls_run driver (call.run driver gl shader).1 (call.run driver gl shader).2 rest

/-- The vertex array that is bound after a trace: the argument of the last
`glBindVertexArray`, and 0, the default, when there was none. -/
def gl_bound_vertex_array {R : Type} (trace : GLTrace R) : Nat :=
  trace.foldl (fun bound c => match c with | .glBindVertexArray array => array | _ => bound) 0

/-- The framebuffer that is bound after a trace: the argument of the last
`glBindFramebuffer`, and 0, the default, when there was none. -/
def gl_bound_framebuffer {R : Type} (trace : GLTrace R) : Nat :=
  trace.foldl (fun bound c => match c with | .glBindFramebuffer _ fb => fb | _ => bound) 0

/-! ## Concrete inputs -/

/-- The bit pattern of `1.0f`. -/
def f32_one : Nat := 0x3F800000

/-- The bit pattern of `-1.0f`. -/
def f32_neg_one : Nat := 0xBF800000

/-- The first vertex of the quad of `tests/window.c`. -/
def quad_v0 : sf_vertex :=
  ⟨⟨f32_neg_one, f32_neg_one, 0⟩, ⟨f32_one, f32_one⟩, ⟨f32_one, f32_one, f32_one, f32_one⟩⟩

/-- The second vertex of the quad of `tests/window.c`. -/
def quad_v1 : sf_vertex :=
  ⟨⟨f32_neg_one, f32_one, 0⟩, ⟨f32_one, 0⟩, ⟨f32_one, f32_one, f32_one, f32_one⟩⟩

/-- The third vertex of the quad of `tests/window.c`. -/
def quad_v2 : sf_vertex :=
  ⟨⟨f32_one, f32_neg_one, 0⟩, ⟨0, f32_one⟩, ⟨f32_one, f32_one, f32_one, f32_one⟩⟩

/-- The fourth vertex of the quad of `tests/window.c`. -/
def quad_v3 : sf_vertex :=
  ⟨⟨f32_one, f32_one, 0⟩, ⟨0, 0⟩, ⟨f32_one, f32_one, f32_one, f32_one⟩⟩

/-- The six vertices that `tests/window.c` submits: `v0, v1, v2, v3, v2, v1`. -/
def quad : List sf_vertex := [quad_v0, quad_v1, quad_v2, quad_v3, quad_v2, quad_v1]

/-- A freshly created mesh with the GL names 1, 2, 3. -/
def fresh_mesh : sf_mesh := (sf_mesh_new ([] : GLTrace ℚ) 1 2 3).1

/-- A driver whose program declares `m_projection`, `m_model` and `t_sampler`
but no `m_campos`. -/
def driver_without_campos : GLDriver :=
  ⟨fun _ name =>
    if name = "m_projection" then 0
    else if name = "m_model" then 2
    else if name = "t_sampler" then 3
    else -1⟩

/-- A linked shader whose uniform cache is still empty. -/
def fresh_shader : sf_shader := ⟨"sample_shaders/default", 1, 2, 7, sf_map_new⟩

/-- A driver whose program declares all four uniforms of the draw call. -/
def driver_with_all_uniforms : GLDriver :=
  ⟨fun _ name =>
    if name = "m_projection" then 0
    else if name = "m_campos" then 1
    else if name = "m_model" then 2
    else if name = "t_sampler" then 3
    else -1⟩

/-! # Theorems

## Meshes: the dedup cache and the batch add -/

theorem memcmp_self (l : List Nat) : memcmp l l = 0 := by
  induction l with
  | nil => rfl
  | cons a as ih => simp [memcmp, ih]

/-- The `EQUAL_FN` of `sf_index_cache` yields 0, the C truth value false, on two
byte-equal vertices. -/
theorem sf_index_cache_EQUAL_FN_self (v : sf_vertex) : sf_index_cache_EQUAL_FN v v = 0 :=
  memcmp_self v.bytes

/-- Every single-vertex add pushes exactly one index. -/
theorem sf_mesh_add_vertex_step_indices_length (mesh : sf_mesh) (v : sf_vertex) :
    (sf_mesh_add_vertex_step mesh v).indices.length = mesh.indices.length + 1 := by
  unfold sf_mesh_add_vertex_step
  split <;> simp [sf_vec_push]

/-- After any stream of adds the index buffer has grown by the number of vertices submitted. -/
theorem sf_mesh_add_stream_indices_length (s : List sf_vertex) (mesh : sf_mesh) :
    (s.foldl sf_mesh_add_vertex_step mesh).indices.length = mesh.indices.length + s.length := by
  induction s generalizing mesh with
  | nil => simp
  | cons v rest ih =>
    rw [List.foldl_cons, ih, sf_mesh_add_vertex_step_indices_length, List.length_cons]
    omega

theorem sf_mesh_update_eq_append {R : Type} (gl : GLTrace R) (mesh : sf_mesh) :
    sf_mesh_update gl mesh = gl ++ sf_mesh_update [] mesh := by
  simp [sf_mesh_update, CLEAN_BIND]

theorem sf_mesh_add_vertices_loop_eq (vertices : List sf_vertex) (count : Nat)
    (h : count ≤ vertices.length) :
    ∀ (n i : Nat) (mesh : sf_mesh), count - i = n → i ≤ count →
      sf_mesh_add_vertices_loop vertices count i mesh
        = some (((vertices.take count).drop i).foldl sf_mesh_add_vertex_step mesh) := by
  intro n
  induction n with
  | zero =>
    intro i mesh hn hi
    have hic : i = count := by omega
    subst hic
    rw [sf_mesh_add_vertices_loop]
    have hd : List.drop i (List.take i vertices) = [] := by
      apply List.drop_eq_nil_of_le
      rw [List.length_take]; omega
    simp [hd]
  | succ n ih =>
    intro i mesh hn hi
    have hlt : i < count := by omega
    have hlen : i < vertices.length := by omega
    have htake : i < (vertices.take count).length := by
      rw [List.length_take]; omega
    rw [sf_mesh_add_vertices_loop]
    rw [if_pos hlt, List.getElem?_eq_getElem hlen]
    simp only []
    rw [ih (i + 1) _ (by omega) (by omega)]
    rw [List.drop_eq_getElem_cons htake, List.getElem_take]
    rfl

/-- C1, evaluated on the code: a vertex added twice to a freshly created mesh is
not found in the dedup cache the second time (`EQUAL_FN` is a bare `memcmp`,
which is 0 on equal bytes), so the vertex buffer holds two copies and the index
buffer is `[0, 1]`, where the claim has one copy and `[0, 0]`. -/
theorem sf_mesh_add_vertex_twice_stores_two_copies {R : Type} (gl : GLTrace R)
    (vao vbo ebo : Nat) (v : sf_vertex) :
    (sf_mesh_add_vertex (sf_mesh_add_vertex (sf_mesh_new gl vao vbo ebo).2
        (sf_mesh_new gl vao vbo ebo).1 v).2
      (sf_mesh_add_vertex (sf_mesh_new gl vao vbo ebo).2
        (sf_mesh_new gl vao vbo ebo).1 v).1 v).1.vertices = [v, v] ∧
    (sf_mesh_add_vertex (sf_mesh_add_vertex (sf_mesh_new gl vao vbo ebo).2
        (sf_mesh_new gl vao vbo ebo).1 v).2
      (sf_mesh_add_vertex (sf_mesh_new gl vao vbo ebo).2
        (sf_mesh_new gl vao vbo ebo).1 v).1 v).1.indices = [0, 1] := by
  simp [sf_mesh_new, sf_mesh_add_vertex, sf_mesh_add_vertex_step, sf_index_cache_get,
    sf_index_cache_set, sf_map_get, sf_map_set, sf_map_new, sf_vec_push,
    sf_index_cache_EQUAL_FN_self, to_int32, to_uint32]

/-- C2, evaluated on the code: adding a vertex to a freshly created mesh appends
it, pushes index 0 and records the entry `(v, 0)` in the dedup cache, but a
later lookup of `v` in that cache does not find it. -/
theorem sf_mesh_add_vertex_recorded_not_found {R : Type} (gl : GLTrace R)
    (vao vbo ebo : Nat) (v : sf_vertex) :
    (sf_mesh_add_vertex (sf_mesh_new gl vao vbo ebo).2
        (sf_mesh_new gl vao vbo ebo).1 v).1.vertices = [v] ∧
    (sf_mesh_add_vertex (sf_mesh_new gl vao vbo ebo).2
        (sf_mesh_new gl vao vbo ebo).1 v).1.indices = [0] ∧
    (sf_mesh_add_vertex (sf_mesh_new gl vao vbo ebo).2
        (sf_mesh_new gl vao vbo ebo).1 v).1.cache = [(v, 0)] ∧
    sf_index_cache_get (sf_mesh_add_vertex (sf_mesh_new gl vao vbo ebo).2
        (sf_mesh_new gl vao vbo ebo).1 v).1.cache v = none := by
  simp [sf_mesh_new, sf_mesh_add_vertex, sf_mesh_add_vertex_step, sf_index_cache_get,
    sf_index_cache_set, sf_map_get, sf_map_set, sf_map_new, sf_vec_push,
    sf_index_cache_EQUAL_FN_self, to_int32, to_uint32]

/-- C3, evaluated on the code: for the two-vertex stream `v, v` submitted to a
freshly created mesh with `sf_mesh_add_vertices`, the index buffer is `[0, 1]`,
while the first-occurrence ranks of the stream are `[0, 0]`. -/
theorem sf_mesh_add_vertices_not_first_occurrence_rank {R : Type} (gl : GLTrace R)
    (vao vbo ebo : Nat) (v : sf_vertex) :
    (sf_mesh_add_vertices (sf_mesh_new gl vao vbo ebo).2 (sf_mesh_new gl vao vbo ebo).1
        [v, v] 2).map (fun r => r.1.indices) = some [0, 1] ∧
    first_occurrence_ranks [v, v] = [0, 0] := by
  constructor
  · rw [sf_mesh_add_vertices, sf_mesh_add_vertices_loop_eq [v, v] 2 (by simp) 2 0 _ rfl
      (by omega)]
    simp [sf_mesh_new, sf_mesh_add_vertex_step, sf_index_cache_get,
      sf_index_cache_set, sf_map_get, sf_map_set, sf_map_new, sf_vec_push,
      sf_index_cache_EQUAL_FN_self, to_int32, to_uint32]
  · simp [first_occurrence_ranks, first_occurrence_rank]

/-- C4, evaluated on the code: after the stream `v, v` on a freshly created mesh
the index buffer has the 2 submitted entries and every index is below the
vertex buffer length, but the vertex buffer has length 2 while the stream has
1 distinct vertex value. -/
theorem sf_mesh_vertex_count_exceeds_distinct (v : sf_vertex) (vao vbo ebo : Nat) :
    ([v, v].foldl sf_mesh_add_vertex_step
        (sf_mesh_new ([] : GLTrace ℚ) vao vbo ebo).1).indices.length = [v, v].length ∧
    ([v, v].foldl sf_mesh_add_vertex_step
        (sf_mesh_new ([] : GLTrace ℚ) vao vbo ebo).1).vertices.length = 2 ∧
    ([v, v].dedup).length = 1 ∧
    ∀ i ∈ ([v, v].foldl sf_mesh_add_vertex_step
        (sf_mesh_new ([] : GLTrace ℚ) vao vbo ebo).1).indices,
      i < (([v, v].foldl sf_mesh_add_vertex_step
        (sf_mesh_new ([] : GLTrace ℚ) vao vbo ebo).1).vertices.length : Int) := by
  simp [sf_mesh_new, sf_mesh_add_vertex_step, sf_index_cache_get,
    sf_index_cache_set, sf_map_get, sf_map_set, sf_map_new, sf_vec_push,
    sf_index_cache_EQUAL_FN_self, to_int32, to_uint32]

/-- C5: `sf_mesh_add_vertices(mesh, vertices, count)` leaves the vertex buffer,
index buffer and dedup cache in the state reached by the single-vertex add step
on `vertices[0], ..., vertices[count-1]` in order, and extends the GL trace by
the calls of exactly one `sf_mesh_update`, made on that final state; with
`count = 0` the mesh is unchanged and the one update is still made. -/
theorem sf_mesh_add_vertices_is_fold_then_one_update {R : Type} (gl : GLTrace R)
    (mesh : sf_mesh) (vertices : List sf_vertex) (count : Nat)
    (h : count ≤ vertices.length) :
    sf_mesh_add_vertices gl mesh vertices count
        = some ((vertices.take count).foldl sf_mesh_add_vertex_step mesh,
            gl ++ sf_mesh_update []
              ((vertices.take count).foldl sf_mesh_add_vertex_step mesh)) ∧
    sf_mesh_add_vertices gl mesh vertices 0 = some (mesh, gl ++ sf_mesh_update [] mesh) := by
  constructor
  · unfold sf_mesh_add_vertices
    rw [sf_mesh_add_vertices_loop_eq vertices count h count 0 mesh (by omega) (by omega)]
    simp only [List.drop_zero]
    rw [sf_mesh_update_eq_append]
  · unfold sf_mesh_add_vertices
    rw [sf_mesh_add_vertices_loop_eq vertices 0 (by omega) 0 0 mesh (by omega) (by omega)]
    simp only [List.take_zero, List.drop_zero, List.foldl_nil]
    rw [sf_mesh_update_eq_append]

/-- C5 at the quad of `tests/window.c`: all six vertices, one update. -/
theorem sf_mesh_add_vertices_is_fold_then_one_update_witness :
    6 ≤ quad.length ∧
    sf_mesh_add_vertices ([] : GLTrace ℚ) fresh_mesh quad 6
        = some ((quad.take 6).foldl sf_mesh_add_vertex_step fresh_mesh,
            [] ++ sf_mesh_update []
              ((quad.take 6).foldl sf_mesh_add_vertex_step fresh_mesh)) :=
  ⟨by decide,
    (sf_mesh_add_vertices_is_fold_then_one_update [] fresh_mesh quad 6 (by decide)).1⟩

/-! ## Transforms: what the cglm calls compose -/

section transform_lemmas
variable {R : Type} [Field R]

theorem to_matrix_identity : (glm_mat4_identity : mat4 R).to_matrix = 1 := by
  ext i j
  fin_cases i <;> fin_cases j <;>
    simp [mat4.to_matrix, glm_mat4_identity, Matrix.vecHead, Matrix.vecTail]

/-- The function `glm_mat4_mul` is the matrix product. -/
theorem to_matrix_mul (a b : mat4 R) :
    (glm_mat4_mul a b).to_matrix = a.to_matrix * b.to_matrix := by
  ext i j
  fin_cases i <;> fin_cases j <;>
    simp [mat4.to_matrix, glm_mat4_mul, glm_mat4_mulv, Matrix.mul_apply, Fin.sum_univ_four,
      Matrix.vecHead, Matrix.vecTail]

/-- The function `glm_scale` multiplies by the scaling on the right. -/
theorem glm_scale_eq_mul (m : mat4 R) (x y z : R) :
    glm_scale m ⟨x, y, z⟩
      = glm_mat4_mul m ⟨⟨x, 0, 0, 0⟩, ⟨0, y, 0, 0⟩, ⟨0, 0, z, 0⟩, ⟨0, 0, 0, 1⟩⟩ := by
  simp [glm_scale, glm_mat4_mul, glm_mat4_mulv, glm_vec4_scale]

/-- The function `glm_translate` multiplies by the translation on the right. -/
theorem glm_translate_eq_mul (m : mat4 R) (x y z : R) :
    glm_translate m ⟨x, y, z⟩
      = glm_mat4_mul m ⟨⟨1, 0, 0, 0⟩, ⟨0, 1, 0, 0⟩, ⟨0, 0, 1, 0⟩, ⟨x, y, z, 1⟩⟩ := by
  rcases m with ⟨⟨_, _, _, _⟩, ⟨_, _, _, _⟩, ⟨_, _, _, _⟩, ⟨_, _, _, _⟩⟩
  simp only [glm_translate, glm_mat4_mul, glm_mat4_mulv, glm_vec4_muladds, mat4.mk.injEq,
    vec4.mk.injEq]
  refine ⟨⟨?_, ?_, ?_, ?_⟩, ⟨?_, ?_, ?_, ?_⟩, ⟨?_, ?_, ?_, ?_⟩, ⟨?_, ?_, ?_, ?_⟩⟩ <;> ring

/-- The function `glm_mul_rot` is the matrix product when the right factor has
the shape of a rotation matrix. -/
theorem glm_mul_rot_eq_mul (m : mat4 R) (a b c d e f g h i : R) :
    glm_mul_rot m ⟨⟨a, b, c, 0⟩, ⟨d, e, f, 0⟩, ⟨g, h, i, 0⟩, ⟨0, 0, 0, 1⟩⟩
      = glm_mat4_mul m ⟨⟨a, b, c, 0⟩, ⟨d, e, f, 0⟩, ⟨g, h, i, 0⟩, ⟨0, 0, 0, 1⟩⟩ := by
  simp [glm_mul_rot, glm_mat4_mul, glm_mat4_mulv]

theorem to_matrix_scale_lit (s : sf_vec3 R) :
    (⟨⟨s.x, 0, 0, 0⟩, ⟨0, s.y, 0, 0⟩, ⟨0, 0, s.z, 0⟩, ⟨0, 0, 0, 1⟩⟩ : mat4 R).to_matrix
      = scale_matrix s := rfl

theorem to_matrix_translate_lit (p : sf_vec3 R) :
    (⟨⟨1, 0, 0, 0⟩, ⟨0, 1, 0, 0⟩, ⟨0, 0, 1, 0⟩, ⟨p.x, p.y, p.z, 1⟩⟩ : mat4 R).to_matrix
      = translate_matrix p := rfl

variable [DecidableEq R]

theorem glm_rotate_make_x (L : Libm R) (h : L.sqrtf 1 = 1) (a : R) :
    glm_rotate_make L a ⟨1, 0, 0⟩
      = ⟨⟨1, 0, 0, 0⟩, ⟨0, L.cosf a, L.sinf a, 0⟩, ⟨0, -L.sinf a, L.cosf a, 0⟩, ⟨0, 0, 0, 1⟩⟩ := by
  simp [glm_rotate_make, glm_vec3_normalize_to, glm_vec3_norm, glm_vec3_scale, h]

theorem glm_rotate_make_y (L : Libm R) (h : L.sqrtf 1 = 1) (a : R) :
    glm_rotate_make L a ⟨0, 1, 0⟩
      = ⟨⟨L.cosf a, 0, -L.sinf a, 0⟩, ⟨0, 1, 0, 0⟩, ⟨L.sinf a, 0, L.cosf a, 0⟩, ⟨0, 0, 0, 1⟩⟩ := by
  simp [glm_rotate_make, glm_vec3_normalize_to, glm_vec3_norm, glm_vec3_scale, h]

theorem glm_rotate_make_z (L : Libm R) (h : L.sqrtf 1 = 1) (a : R) :
    glm_rotate_make L a ⟨0, 0, 1⟩
      = ⟨⟨L.cosf a, L.sinf a, 0, 0⟩, ⟨-L.sinf a, L.cosf a, 0, 0⟩, ⟨0, 0, 1, 0⟩, ⟨0, 0, 0, 1⟩⟩ := by
  simp [glm_rotate_make, glm_vec3_normalize_to, glm_vec3_norm, glm_vec3_scale, h]

theorem to_matrix_rotate_x (L : Libm R) (h : L.sqrtf 1 = 1) (m : mat4 R) (deg : R) :
    (glm_rotate L m (glm_rad L deg) ⟨1, 0, 0⟩).to_matrix = m.to_matrix * rotate_x_matrix L deg := by
  rw [glm_rotate, glm_rotate_make_x L h, glm_mul_rot_eq_mul, to_matrix_mul]
  rfl

theorem to_matrix_rotate_y (L : Libm R) (h : L.sqrtf 1 = 1) (m : mat4 R) (deg : R) :
    (glm_rotate L m (glm_rad L deg) ⟨0, 1, 0⟩).to_matrix = m.to_matrix * rotate_y_matrix L deg := by
  rw [glm_rotate, glm_rotate_make_y L h, glm_mul_rot_eq_mul, to_matrix_mul]
  rfl

theorem to_matrix_rotate_z (L : Libm R) (h : L.sqrtf 1 = 1) (m : mat4 R) (deg : R) :
    (glm_rotate L m (glm_rad L deg) ⟨0, 0, 1⟩).to_matrix = m.to_matrix * rotate_z_matrix L deg := by
  rw [glm_rotate, glm_rotate_make_z L h, glm_mul_rot_eq_mul, to_matrix_mul]
  rfl

/-- The parent-free branch of `sf_transform_model` as a product of matrices. -/
theorem to_matrix_model_no_parent (L : Libm R) (h : L.sqrtf 1 = 1) (p r s : sf_vec3 R) :
    (sf_transform_model L (.mk p r s none)).to_matrix
      = scale_matrix s * rotate_x_matrix L r.x * rotate_y_matrix L r.y * rotate_z_matrix L r.z
          * translate_matrix p := by
  simp only [sf_transform_model, glm_mat4_copy, glm_translate_eq_mul, glm_scale_eq_mul,
    to_matrix_mul, to_matrix_rotate_x L h,
    to_matrix_rotate_y L h, to_matrix_rotate_z L h, to_matrix_scale_lit, to_matrix_translate_lit,
    to_matrix_identity, one_mul]

/-- The parent branch of `sf_transform_model` as a product of matrices. -/
theorem to_matrix_model_parent (L : Libm R) (h : L.sqrtf 1 = 1) (p r s : sf_vec3 R)
    (par : sf_transform R) :
    (sf_transform_model L (.mk p r s (some par))).to_matrix
      = (sf_transform_model L par).to_matrix *
        (scale_matrix s * translate_matrix p * rotate_x_matrix L r.x * rotate_y_matrix L r.y
          * rotate_z_matrix L r.z) := by
  simp only [sf_transform_model, glm_mat4_copy, glm_translate_eq_mul, glm_scale_eq_mul,
    to_matrix_mul, to_matrix_rotate_x L h,
    to_matrix_rotate_y L h, to_matrix_rotate_z L h, to_matrix_scale_lit, to_matrix_translate_lit,
    to_matrix_identity, one_mul]

end transform_lemmas

/-- With the real `sqrt`, the square root of 1 is 1. -/
theorem real_libm_sqrtf_one : (Libm.mk Real.cos Real.sin Real.sqrt Real.pi).sqrtf 1 = 1 :=
  Real.sqrt_one

/-- C6, as stated, fails: for position (1,0,0), no rotation and scale (2,2,2)
the model matrix is not `T * Rx * Ry * Rz * S` (its last column is (2,0,0,1),
not (position, 1)). -/
theorem sf_transform_model_ne_translate_rotate_scale :
    (sf_transform_model (Libm.mk Real.cos Real.sin Real.sqrt Real.pi)
        (.mk ⟨1, 0, 0⟩ ⟨0, 0, 0⟩ ⟨2, 2, 2⟩ none)).to_matrix
      ≠ translate_matrix ⟨1, 0, 0⟩
          * rotate_x_matrix (Libm.mk Real.cos Real.sin Real.sqrt Real.pi) 0
          * rotate_y_matrix (Libm.mk Real.cos Real.sin Real.sqrt Real.pi) 0
          * rotate_z_matrix (Libm.mk Real.cos Real.sin Real.sqrt Real.pi) 0
          * scale_matrix ⟨2, 2, 2⟩ := by
  intro h
  have h2 := congrFun (congrFun h 0) 3
  rw [to_matrix_model_no_parent _ real_libm_sqrtf_one] at h2
  simp [Matrix.mul_apply, Fin.sum_univ_four, scale_matrix, translate_matrix, rotate_x_matrix,
    rotate_y_matrix, rotate_z_matrix, Matrix.vecHead, Matrix.vecTail] at h2

/-- C6, amended: for every transform without a parent, `sf_transform_model`
equals `S * Rx * Ry * Rz * T` acting on column vectors (each cglm call
multiplies on the right): a point is translated first, then rotated about Z, Y
and X, and scaled last. -/
theorem sf_transform_model_scale_rotate_translate {R : Type} [Field R] [DecidableEq R]
    (L : Libm R) (h : L.sqrtf 1 = 1) (p r s : sf_vec3 R) :
    (sf_transform_model L (.mk p r s none)).to_matrix
      = scale_matrix s * rotate_x_matrix L r.x * rotate_y_matrix L r.y * rotate_z_matrix L r.z
          * translate_matrix p :=
  to_matrix_model_no_parent L h p r s

/-- C6, amended, at position (1,2,3), rotation (30,45,60) degrees, scale (2,3,4). -/
theorem sf_transform_model_scale_rotate_translate_witness :
    Real.sqrt 1 = 1 ∧
    (sf_transform_model (Libm.mk Real.cos Real.sin Real.sqrt Real.pi)
        (.mk ⟨1, 2, 3⟩ ⟨30, 45, 60⟩ ⟨2, 3, 4⟩ none)).to_matrix
      = scale_matrix ⟨2, 3, 4⟩
          * rotate_x_matrix (Libm.mk Real.cos Real.sin Real.sqrt Real.pi) 30
          * rotate_y_matrix (Libm.mk Real.cos Real.sin Real.sqrt Real.pi) 45
          * rotate_z_matrix (Libm.mk Real.cos Real.sin Real.sqrt Real.pi) 60
          * translate_matrix ⟨1, 2, 3⟩ :=
  ⟨Real.sqrt_one,
    sf_transform_model_scale_rotate_translate (Libm.mk Real.cos Real.sin Real.sqrt Real.pi)
      Real.sqrt_one ⟨1, 2, 3⟩ ⟨30, 45, 60⟩ ⟨2, 3, 4⟩⟩

/-- C7, evaluated on the code: for a transform at position (1,0,0) turned 180
degrees about Z whose parent is the identity transform, `sf_transform_model` is
not `sf_transform_model(parent) * Local`, where `Local` is what
`sf_transform_model` computes for the same position, rotation and scale without
the parent: the parented branch translates before it rotates, the parent-free
branch rotates before it translates. -/
theorem sf_transform_model_parent_ne_parent_mul_local :
    sf_transform_model (Libm.mk Real.cos Real.sin Real.sqrt Real.pi)
        (.mk ⟨1, 0, 0⟩ ⟨0, 0, 180⟩ ⟨1, 1, 1⟩ (some (.mk ⟨0, 0, 0⟩ ⟨0, 0, 0⟩ ⟨1, 1, 1⟩ none)))
      ≠ glm_mat4_mul
          (sf_transform_model (Libm.mk Real.cos Real.sin Real.sqrt Real.pi)
            (.mk ⟨0, 0, 0⟩ ⟨0, 0, 0⟩ ⟨1, 1, 1⟩ none))
          (sf_transform_model (Libm.mk Real.cos Real.sin Real.sqrt Real.pi)
            (.mk ⟨1, 0, 0⟩ ⟨0, 0, 180⟩ ⟨1, 1, 1⟩ none)) := by
  intro h
  have h2 := congrArg (fun m => m.m3.x) h
  have h180 : (180 : ℝ) * Real.pi / 180 = Real.pi := by ring
  simp [sf_transform_model, glm_rotate, glm_rotate_make_x _ real_libm_sqrtf_one,
    glm_rotate_make_y _ real_libm_sqrtf_one, glm_rotate_make_z _ real_libm_sqrtf_one, glm_rad,
    glm_mat4_copy, glm_translate, glm_mul_rot, glm_scale, glm_mat4_identity, glm_vec4_scale,
    glm_vec4_muladds, glm_mat4_mul, glm_mat4_mulv, h180] at h2
  norm_num at h2

/-! ## The view matrix: `glm_mat4_inv` -/

section inverse_lemmas
variable {R : Type} [Field R]

theorem glm_mat4_inv_cofactors_mul (M : mat4 R) :
    glm_mat4_mul (glm_mat4_inv_cofactors M) M
      = glm_mat4_scale_p glm_mat4_identity (glm_mat4_inv_det M) := by
  rcases M with ⟨⟨a, b, c, d⟩, ⟨e, f, g, h⟩, ⟨i, j, k, l⟩, ⟨m, n, o, p⟩⟩
  simp only [glm_mat4_inv_det, glm_mat4_inv_cofactors, glm_mat4_mul, glm_mat4_mulv,
    glm_mat4_scale_p, glm_vec4_scale, glm_mat4_identity, mat4.mk.injEq, vec4.mk.injEq]
  refine ⟨⟨?_, ?_, ?_, ?_⟩, ⟨?_, ?_, ?_, ?_⟩, ⟨?_, ?_, ?_, ?_⟩, ⟨?_, ?_, ?_, ?_⟩⟩ <;> ring

theorem glm_mat4_scale_p_mul (A B : mat4 R) (s : R) :
    glm_mat4_mul (glm_mat4_scale_p A s) B = glm_mat4_scale_p (glm_mat4_mul A B) s := by
  rcases A with ⟨⟨_, _, _, _⟩, ⟨_, _, _, _⟩, ⟨_, _, _, _⟩, ⟨_, _, _, _⟩⟩
  rcases B with ⟨⟨_, _, _, _⟩, ⟨_, _, _, _⟩, ⟨_, _, _, _⟩, ⟨_, _, _, _⟩⟩
  simp only [glm_mat4_mul, glm_mat4_mulv, glm_mat4_scale_p, glm_vec4_scale, mat4.mk.injEq,
    vec4.mk.injEq]
  refine ⟨⟨?_, ?_, ?_, ?_⟩, ⟨?_, ?_, ?_, ?_⟩, ⟨?_, ?_, ?_, ?_⟩, ⟨?_, ?_, ?_, ?_⟩⟩ <;> ring

theorem glm_mat4_inv_det_scale (M : mat4 R) (v : vec3 R) :
    glm_mat4_inv_det (glm_scale M v) = glm_mat4_inv_det M * (v.x * v.y * v.z) := by
  rcases M with ⟨⟨_, _, _, _⟩, ⟨_, _, _, _⟩, ⟨_, _, _, _⟩, ⟨_, _, _, _⟩⟩
  simp only [glm_scale, glm_vec4_scale, glm_mat4_inv_det, glm_mat4_inv_cofactors]
  ring

theorem glm_mat4_inv_det_translate (M : mat4 R) (v : vec3 R) :
    glm_mat4_inv_det (glm_translate M v) = glm_mat4_inv_det M := by
  rcases M with ⟨⟨_, _, _, _⟩, ⟨_, _, _, _⟩, ⟨_, _, _, _⟩, ⟨_, _, _, _⟩⟩
  simp only [glm_translate, glm_vec4_muladds, glm_mat4_inv_det, glm_mat4_inv_cofactors]
  ring

theorem glm_mat4_inv_det_identity : glm_mat4_inv_det (glm_mat4_identity : mat4 R) = 1 := by
  simp [glm_mat4_inv_det, glm_mat4_inv_cofactors, glm_mat4_identity]

variable [DecidableEq R]

/-- When the determinant is not zero, `glm_mat4_inv` returns a left inverse. -/
theorem glm_mat4_inv_mul (M : mat4 R) (hdet : glm_mat4_inv_det M ≠ 0) :
    ∃ V, glm_mat4_inv M = some V ∧ glm_mat4_mul V M = glm_mat4_identity := by
  refine ⟨_, if_neg hdet, ?_⟩
  rw [glm_mat4_scale_p_mul, glm_mat4_inv_cofactors_mul]
  simp [glm_mat4_scale_p, glm_vec4_scale, glm_mat4_identity, hdet]

theorem glm_mat4_inv_det_rotate_x (L : Libm R) (h : L.sqrtf 1 = 1) (M : mat4 R) (a : R) :
    glm_mat4_inv_det (glm_rotate L M a ⟨1, 0, 0⟩)
      = glm_mat4_inv_det M * (L.cosf a ^ 2 + L.sinf a ^ 2) := by
  rcases M with ⟨⟨_, _, _, _⟩, ⟨_, _, _, _⟩, ⟨_, _, _, _⟩, ⟨_, _, _, _⟩⟩
  simp only [glm_rotate, glm_rotate_make_x L h, glm_mul_rot, glm_mat4_inv_det,
    glm_mat4_inv_cofactors]
  ring

theorem glm_mat4_inv_det_rotate_y (L : Libm R) (h : L.sqrtf 1 = 1) (M : mat4 R) (a : R) :
    glm_mat4_inv_det (glm_rotate L M a ⟨0, 1, 0⟩)
      = glm_mat4_inv_det M * (L.cosf a ^ 2 + L.sinf a ^ 2) := by
  rcases M with ⟨⟨_, _, _, _⟩, ⟨_, _, _, _⟩, ⟨_, _, _, _⟩, ⟨_, _, _, _⟩⟩
  simp only [glm_rotate, glm_rotate_make_y L h, glm_mul_rot, glm_mat4_inv_det,
    glm_mat4_inv_cofactors]
  ring

theorem glm_mat4_inv_det_rotate_z (L : Libm R) (h : L.sqrtf 1 = 1) (M : mat4 R) (a : R) :
    glm_mat4_inv_det (glm_rotate L M a ⟨0, 0, 1⟩)
      = glm_mat4_inv_det M * (L.cosf a ^ 2 + L.sinf a ^ 2) := by
  rcases M with ⟨⟨_, _, _, _⟩, ⟨_, _, _, _⟩, ⟨_, _, _, _⟩, ⟨_, _, _, _⟩⟩
  simp only [glm_rotate, glm_rotate_make_z L h, glm_mul_rot, glm_mat4_inv_det,
    glm_mat4_inv_cofactors]
  ring

/-- The determinant `glm_mat4_inv` divides by, for a parent-free model matrix. -/
theorem glm_mat4_inv_det_model (L : Libm R) (h : L.sqrtf 1 = 1) (p r s : sf_vec3 R) :
    glm_mat4_inv_det (sf_transform_model L (.mk p r s none))
      = s.x * s.y * s.z
        * (L.cosf (glm_rad L r.x) ^ 2 + L.sinf (glm_rad L r.x) ^ 2)
        * (L.cosf (glm_rad L r.y) ^ 2 + L.sinf (glm_rad L r.y) ^ 2)
        * (L.cosf (glm_rad L r.z) ^ 2 + L.sinf (glm_rad L r.z) ^ 2) := by
  simp only [sf_transform_model, glm_mat4_copy, glm_mat4_inv_det_translate,
    glm_mat4_inv_det_rotate_x L h, glm_mat4_inv_det_rotate_y L h, glm_mat4_inv_det_rotate_z L h,
    glm_mat4_inv_det_scale, glm_mat4_inv_det_identity]
  ring

end inverse_lemmas

theorem scale_matrix_det_zero_of_x_zero {R : Type} [Field R] (y z : R) :
    (scale_matrix (⟨0, y, z⟩ : sf_vec3 R)).det = 0 := by
  apply Matrix.det_eq_zero_of_row_eq_zero 0
  intro j
  fin_cases j <;> simp [scale_matrix, Matrix.vecHead, Matrix.vecTail]

/-- C8, as stated, fails: for the parent-free transform with scale (0,1,1) the
determinant is zero, `sf_transform_view` has no finite result, and no matrix at
all is a left inverse of `sf_transform_model`. -/
theorem sf_transform_view_zero_scale_no_inverse :
    sf_transform_view (Libm.mk Real.cos Real.sin Real.sqrt Real.pi)
        (.mk ⟨0, 0, 0⟩ ⟨0, 0, 0⟩ ⟨0, 1, 1⟩ none) = none ∧
    ∀ V : Matrix (Fin 4) (Fin 4) ℝ,
      V * (sf_transform_model (Libm.mk Real.cos Real.sin Real.sqrt Real.pi)
        (.mk ⟨0, 0, 0⟩ ⟨0, 0, 0⟩ ⟨0, 1, 1⟩ none)).to_matrix ≠ 1 := by
  constructor
  · simp [sf_transform_view, glm_mat4_inv, glm_mat4_inv_det_model _ real_libm_sqrtf_one]
  · intro V h
    have h2 := congrArg Matrix.det h
    rw [to_matrix_model_no_parent _ real_libm_sqrtf_one] at h2
    simp only [Matrix.det_mul, scale_matrix_det_zero_of_x_zero, zero_mul, mul_zero,
      Matrix.det_one] at h2
    exact zero_ne_one h2

/-- C8, amended: for every parent-free transform whose three scale components
are all nonzero, `sf_transform_view` returns a matrix and the product
`sf_transform_view(t) * sf_transform_model(t)` is the 4x4 identity. -/
theorem sf_transform_view_mul_model {R : Type} [Field R] [DecidableEq R]
    (L : Libm R) (hsqrt : L.sqrtf 1 = 1)
    (hunit : ∀ x, L.cosf x ^ 2 + L.sinf x ^ 2 = 1)
    (p r s : sf_vec3 R) (hx : s.x ≠ 0) (hy : s.y ≠ 0) (hz : s.z ≠ 0) :
    ∃ V, sf_transform_view L (.mk p r s none) = some V ∧
      V.to_matrix * (sf_transform_model L (.mk p r s none)).to_matrix = 1 := by
  have hdet : glm_mat4_inv_det (sf_transform_model L (.mk p r s none)) ≠ 0 := by
    rw [glm_mat4_inv_det_model L hsqrt, hunit, hunit, hunit]
    simp [hx, hy, hz]
  obtain ⟨V, hV, hmul⟩ := glm_mat4_inv_mul _ hdet
  refine ⟨V, hV, ?_⟩
  rw [← to_matrix_mul, hmul, to_matrix_identity]

/-- C8, amended, at position (1,2,3), rotation (30,45,60) degrees, scale (2,3,4). -/
theorem sf_transform_view_mul_model_witness :
    (Real.sqrt 1 = 1 ∧ (∀ x, Real.cos x ^ 2 + Real.sin x ^ 2 = 1) ∧
      (2 : ℝ) ≠ 0 ∧ (3 : ℝ) ≠ 0 ∧ (4 : ℝ) ≠ 0) ∧
    ∃ V, sf_transform_view (Libm.mk Real.cos Real.sin Real.sqrt Real.pi)
        (.mk ⟨1, 2, 3⟩ ⟨30, 45, 60⟩ ⟨2, 3, 4⟩ none) = some V ∧
      V.to_matrix * (sf_transform_model (Libm.mk Real.cos Real.sin Real.sqrt Real.pi)
        (.mk ⟨1, 2, 3⟩ ⟨30, 45, 60⟩ ⟨2, 3, 4⟩ none)).to_matrix = 1 :=
  ⟨⟨Real.sqrt_one, Real.cos_sq_add_sin_sq, by norm_num, by norm_num, by norm_num⟩,
    sf_transform_view_mul_model (Libm.mk Real.cos Real.sin Real.sqrt Real.pi) Real.sqrt_one
      Real.cos_sq_add_sin_sq ⟨1, 2, 3⟩ ⟨30, 45, 60⟩ ⟨2, 3, 4⟩
      (by norm_num) (by norm_num) (by norm_num)⟩

/-! ## The `m_campos` matrix of the draw call -/

theorem scale_matrix_one {R : Type} [Field R] : scale_matrix (⟨1, 1, 1⟩ : sf_vec3 R) = 1 := by
  ext i j
  fin_cases i <;> fin_cases j <;> simp [scale_matrix, Matrix.vecHead, Matrix.vecTail]

theorem rotate_x_matrix_zero {R : Type} [Field R] (L : Libm R) (hcos : L.cosf 0 = 1)
    (hsin : L.sinf 0 = 0) : rotate_x_matrix L 0 = 1 := by
  ext i j
  fin_cases i <;> fin_cases j <;>
    simp [rotate_x_matrix, hcos, hsin, Matrix.vecHead, Matrix.vecTail]

theorem rotate_y_matrix_zero {R : Type} [Field R] (L : Libm R) (hcos : L.cosf 0 = 1)
    (hsin : L.sinf 0 = 0) : rotate_y_matrix L 0 = 1 := by
  ext i j
  fin_cases i <;> fin_cases j <;>
    simp [rotate_y_matrix, hcos, hsin, Matrix.vecHead, Matrix.vecTail]

theorem rotate_z_matrix_zero {R : Type} [Field R] (L : Libm R) (hcos : L.cosf 0 = 1)
    (hsin : L.sinf 0 = 0) : rotate_z_matrix L 0 = 1 := by
  ext i j
  fin_cases i <;> fin_cases j <;>
    simp [rotate_z_matrix, hcos, hsin, Matrix.vecHead, Matrix.vecTail]

/-- C9, as stated, fails: a camera at position (1,0,0) turned 180 degrees about
Z does not get the pure translation by (-1,0,0) as `m_campos`, and it gets a
different `m_campos` than the camera that differs from it only in rotation. -/
theorem sf_mesh_draw_campos_depends_on_rotation :
    (sf_mesh_draw_campos (Libm.mk Real.cos Real.sin Real.sqrt Real.pi)
        ⟨.SF_CAMERA_PERSPECTIVE, .mk ⟨1, 0, 0⟩ ⟨0, 0, 180⟩ ⟨1, 1, 1⟩ none,
          glm_mat4_identity, ⟨1280, 720⟩, 1, ⟨12, 12, 12, 255⟩⟩).to_matrix
      ≠ translate_matrix ⟨-1, 0, 0⟩ ∧
    sf_mesh_draw_campos (Libm.mk Real.cos Real.sin Real.sqrt Real.pi)
        ⟨.SF_CAMERA_PERSPECTIVE, .mk ⟨1, 0, 0⟩ ⟨0, 0, 180⟩ ⟨1, 1, 1⟩ none,
          glm_mat4_identity, ⟨1280, 720⟩, 1, ⟨12, 12, 12, 255⟩⟩
      ≠ sf_mesh_draw_campos (Libm.mk Real.cos Real.sin Real.sqrt Real.pi)
        ⟨.SF_CAMERA_PERSPECTIVE, .mk ⟨1, 0, 0⟩ ⟨0, 0, 0⟩ ⟨1, 1, 1⟩ none,
          glm_mat4_identity, ⟨1280, 720⟩, 1, ⟨12, 12, 12, 255⟩⟩ := by
  have h180 : (180 : ℝ) * Real.pi / 180 = Real.pi := by ring
  constructor
  · intro h
    have h2 := congrFun (congrFun h 0) 0
    simp [sf_mesh_draw_campos, sf_transform.position, sf_transform.rotation,
      sf_transform.scale, sf_transform.parent, mat4.to_matrix, translate_matrix,
      sf_transform_model, glm_rotate, glm_rotate_make_x _ real_libm_sqrtf_one,
      glm_rotate_make_y _ real_libm_sqrtf_one, glm_rotate_make_z _ real_libm_sqrtf_one, glm_rad,
      glm_mat4_copy, glm_translate, glm_mul_rot, glm_scale, glm_mat4_identity, glm_vec4_scale,
      glm_vec4_muladds, h180] at h2
    norm_num at h2
  · intro h
    have h2 := congrArg (fun m => m.m0.x) h
    simp [sf_mesh_draw_campos, sf_transform.position, sf_transform.rotation,
      sf_transform.scale, sf_transform.parent,
      sf_transform_model, glm_rotate, glm_rotate_make_x _ real_libm_sqrtf_one,
      glm_rotate_make_y _ real_libm_sqrtf_one, glm_rotate_make_z _ real_libm_sqrtf_one, glm_rad,
      glm_mat4_copy, glm_translate, glm_mul_rot, glm_scale, glm_mat4_identity, glm_vec4_scale,
      glm_vec4_muladds, h180] at h2
    norm_num at h2

/-- C9, amended: the matrix `sf_mesh_draw` uploads as `m_campos` is
`sf_transform_model` of the camera transform with only its position negated.
For a camera transform without a parent it is `S * Rx * Ry * Rz * T(-x,-y,-z)`,
so it keeps the rotation and the scale; it is the pure translation by
`(-x, -y, -z)` when the rotation is (0,0,0) and the scale is (1,1,1). -/
theorem sf_mesh_draw_campos_matrix {R : Type} [Field R] [DecidableEq R]
    (L : Libm R) (hsqrt : L.sqrtf 1 = 1) (hcos : L.cosf 0 = 1) (hsin : L.sinf 0 = 0)
    (camera : sf_camera R) (p r s : sf_vec3 R) :
    (sf_mesh_draw_campos L { camera with transform := .mk p r s none }).to_matrix
      = scale_matrix s * rotate_x_matrix L r.x * rotate_y_matrix L r.y * rotate_z_matrix L r.z
          * translate_matrix ⟨-p.x, -p.y, -p.z⟩ ∧
    (sf_mesh_draw_campos L
        { camera with transform := .mk p ⟨0, 0, 0⟩ ⟨1, 1, 1⟩ none }).to_matrix
      = translate_matrix ⟨-p.x, -p.y, -p.z⟩ := by
  constructor
  · simp only [sf_mesh_draw_campos, sf_transform.position, sf_transform.rotation,
      sf_transform.scale, sf_transform.parent]
    rw [to_matrix_model_no_parent L hsqrt]
  · simp only [sf_mesh_draw_campos, sf_transform.position, sf_transform.rotation,
      sf_transform.scale, sf_transform.parent]
    rw [to_matrix_model_no_parent L hsqrt, scale_matrix_one, rotate_x_matrix_zero L hcos hsin,
      rotate_y_matrix_zero L hcos hsin, rotate_z_matrix_zero L hcos hsin]
    simp

/-- C9, amended, at the camera of `tests/window.c` placed at (0,0,10). -/
theorem sf_mesh_draw_campos_matrix_witness :
    (Real.sqrt 1 = 1 ∧ Real.cos 0 = 1 ∧ Real.sin 0 = 0) ∧
    (sf_mesh_draw_campos (Libm.mk Real.cos Real.sin Real.sqrt Real.pi)
        ⟨.SF_CAMERA_PERSPECTIVE, .mk ⟨0, 0, 10⟩ ⟨0, 0, 0⟩ ⟨1, 1, 1⟩ none,
          glm_mat4_identity, ⟨1280, 720⟩, 1, ⟨12, 12, 12, 255⟩⟩).to_matrix
      = translate_matrix ⟨-0, -0, -10⟩ :=
  ⟨⟨Real.sqrt_one, Real.cos_zero, Real.sin_zero⟩,
    (sf_mesh_draw_campos_matrix (Libm.mk Real.cos Real.sin Real.sqrt Real.pi) Real.sqrt_one
      Real.cos_zero Real.sin_zero
      ⟨.SF_CAMERA_PERSPECTIVE, .mk ⟨0, 0, 10⟩ ⟨0, 0, 0⟩ ⟨1, 1, 1⟩ none,
        glm_mat4_identity, ⟨1280, 720⟩, 1, ⟨12, 12, 12, 255⟩⟩
      ⟨0, 0, 10⟩ ⟨0, 0, 0⟩ ⟨1, 1, 1⟩).2⟩

/-! ## The uniform cache and the fail-fast draw -/

theorem sf_uniform_map_get_set_self (m : sf_uniform_map) (k : String) (v : Int) :
    sf_uniform_map_get (sf_uniform_map_set m k v) k = some v := by
  induction m with
  | nil => simp [sf_uniform_map_get, sf_uniform_map_set, sf_map_get, sf_map_set, sf_str_eq]
  | cons e rest ih =>
    obtain ⟨k0, v0⟩ := e
    by_cases h : k0 = k
    · simp [sf_uniform_map_get, sf_uniform_map_set, sf_map_get, sf_map_set, sf_str_eq, h]
    · simp only [sf_uniform_map_get, sf_uniform_map_set] at ih
      simp [sf_uniform_map_get, sf_uniform_map_set, sf_map_get, sf_map_set, sf_str_eq, h, ih]

theorem sf_uniform_map_get_set_ne (m : sf_uniform_map) (k n : String) (v : Int) (hne : n ≠ k) :
    sf_uniform_map_get (sf_uniform_map_set m k v) n = sf_uniform_map_get m n := by
  induction m with
  | nil =>
    simp [sf_uniform_map_get, sf_uniform_map_set, sf_map_get, sf_map_set, sf_str_eq, Ne.symm hne]
  | cons e rest ih =>
    obtain ⟨k0, v0⟩ := e
    simp only [sf_uniform_map_get, sf_uniform_map_set] at ih
    by_cases h : k0 = k
    · subst h
      simp [sf_uniform_map_get, sf_uniform_map_set, sf_map_get, sf_map_set, sf_str_eq,
        Ne.symm hne]
    · by_cases h2 : k0 = n
      · subst h2
        simp [sf_uniform_map_get, sf_uniform_map_set, sf_map_get, sf_map_set, sf_str_eq, h]
      · simp [sf_uniform_map_get, sf_uniform_map_set, sf_map_get, sf_map_set, sf_str_eq, h, h2,
          ih]

theorem sf_get_uniform_spec {R : Type} (driver : GLDriver) (gl : GLTrace R) (shader : sf_shader)
    (name : String) :
    ∃ (d : GLTrace R) (shader' : sf_shader),
      sf_get_uniform driver gl shader name
        = (gl ++ d, shader', sf_uniform_resolve driver shader name) ∧
      gl_effects d = [] ∧
      ∀ n, sf_uniform_resolve driver shader' n = sf_uniform_resolve driver shader n := by
  unfold sf_get_uniform sf_uniform_resolve
  cases hget : sf_uniform_map_get shader.uniforms name with
  | some ok =>
    exact ⟨[.glUseProgram shader.program], shader, by simp [sf_shader_bind], rfl, fun _ => rfl⟩
  | none =>
    by_cases hloc : driver.glGetUniformLocation shader.program name < 0
    · refine ⟨[.glUseProgram shader.program, .glGetUniformLocation shader.program name],
        shader, by simp [sf_shader_bind, hloc], rfl, fun _ => rfl⟩
    · refine ⟨[.glUseProgram shader.program, .glGetUniformLocation shader.program name],
        ⟨shader.path, shader.vertex, shader.fragment, shader.program, sf_uniform_map_set
          shader.uniforms name (driver.glGetUniformLocation shader.program name)⟩,
        by simp [sf_shader_bind, hloc], rfl, ?_⟩
      intro n
      by_cases hn : n = name
      · subst hn
        simp [sf_uniform_map_get_set_self, hget, hloc]
      · simp [sf_uniform_map_get_set_ne _ _ _ _ hn]


theorem gl_effects_append {R : Type} (a b : GLTrace R) :
    gl_effects (a ++ b) = gl_effects a ++ gl_effects b := by
  simp [gl_effects]

theorem gl_effects_nil {R : Type} : gl_effects ([] : GLTrace R) = [] := rfl

theorem gl_effects_glUseProgram {R : Type} (p : Nat) (l : GLTrace R) :
    gl_effects (.glUseProgram p :: l) = gl_effects l := rfl

theorem gl_effects_glUniformMatrix4fv {R : Type} (a : Int) (n : Nat) (t : Bool) (v : mat4 R)
    (l : GLTrace R) :
    gl_effects (.glUniformMatrix4fv a n t v :: l) = .glUniformMatrix4fv a n t v :: gl_effects l :=
  rfl

theorem gl_effects_glUniform1i {R : Type} (a v : Int) (l : GLTrace R) :
    gl_effects (.glUniform1i a v :: l) = .glUniform1i a v :: gl_effects l := rfl

theorem sf_shader_uniform_mat4_none {R : Type} (driver : GLDriver) (gl : GLTrace R)
    (shader : sf_shader) (name : String) (value : mat4 R)
    (h : sf_uniform_resolve driver shader name = none) :
    ∃ (d : GLTrace R) (shader' : sf_shader),
      gl_effects d = [] ∧
      (∀ n, sf_uniform_resolve driver shader' n = sf_uniform_resolve driver shader n) ∧
      sf_shader_uniform_mat4 driver gl shader name value
        = (gl ++ d, shader', .error ⟨.SF_SHADER_UNKNOWN_UNIFORM, SF_STR_EMPTY⟩) := by
  obtain ⟨d, s', heq, heff, hinv⟩ := sf_get_uniform_spec driver gl shader name
  refine ⟨d, s', heff, hinv, ?_⟩
  rw [sf_shader_uniform_mat4, heq, h]

theorem sf_shader_uniform_mat4_some {R : Type} (driver : GLDriver) (gl : GLTrace R)
    (shader : sf_shader) (name : String) (value : mat4 R) (a : Int)
    (h : sf_uniform_resolve driver shader name = some a) :
    ∃ (d : GLTrace R) (shader' : sf_shader),
      gl_effects d = [] ∧
      (∀ n, sf_uniform_resolve driver shader' n = sf_uniform_resolve driver shader n) ∧
      sf_shader_uniform_mat4 driver gl shader name value
        = (gl ++ (d ++ [.glUniformMatrix4fv a 1 false value]), shader', .ok ()) := by
  obtain ⟨d, s', heq, heff, hinv⟩ := sf_get_uniform_spec driver gl shader name
  refine ⟨d, s', heff, hinv, ?_⟩
  rw [sf_shader_uniform_mat4, heq, h]
  simp

theorem sf_shader_uniform_int_none {R : Type} (driver : GLDriver) (gl : GLTrace R)
    (shader : sf_shader) (name : String) (value : Int)
    (h : sf_uniform_resolve driver shader name = none) :
    ∃ (d : GLTrace R) (shader' : sf_shader),
      gl_effects d = [] ∧
      (∀ n, sf_uniform_resolve driver shader' n = sf_uniform_resolve driver shader n) ∧
      sf_shader_uniform_int driver gl shader name value
        = (gl ++ d, shader', .error ⟨.SF_SHADER_UNKNOWN_UNIFORM, SF_STR_EMPTY⟩) := by
  obtain ⟨d, s', heq, heff, hinv⟩ := sf_get_uniform_spec driver gl shader name
  refine ⟨d, s', heff, hinv, ?_⟩
  rw [sf_shader_uniform_int, heq, h]

theorem sf_shader_uniform_int_some {R : Type} (driver : GLDriver) (gl : GLTrace R)
    (shader : sf_shader) (name : String) (value : Int) (a : Int)
    (h : sf_uniform_resolve driver shader name = some a) :
    ∃ (d : GLTrace R) (shader' : sf_shader),
      gl_effects d = [] ∧
      (∀ n, sf_uniform_resolve driver shader' n = sf_uniform_resolve driver shader n) ∧
      sf_shader_uniform_int driver gl shader name value
        = (gl ++ (d ++ [.glUniform1i a value]), shader', .ok ()) := by
  obtain ⟨d, s', heq, heff, hinv⟩ := sf_get_uniform_spec driver gl shader name
  refine ⟨d, s', heff, hinv, ?_⟩
  rw [sf_shader_uniform_int, heq, h]
  simp

section draw_theorems
variable {R : Type} [Field R] [DecidableEq R]

/-- C10: `sf_mesh_draw` with a non-null shader is fail-fast in the order
`m_projection`, `m_campos`, `m_model`, `t_sampler`. When the first of the four
names that does not resolve is `m_projection`, `m_campos`, `m_model` or
`t_sampler`, the call returns `SF_DRAW_UNKNOWN_UNIFORM` carrying that name, and
the calls it made that change GL state are exactly the uniform writes of the
names before it, in order: no later uniform is written, nothing is bound, and
`glDrawElements` is not called. The call returns Ok exactly when all four
names resolve. -/
theorem sf_mesh_draw_fail_fast (L : Libm R) (float_to_int : R → Int) (driver : GLDriver)
    (gl : GLTrace R) (mesh : sf_mesh) (shader : sf_shader) (camera : sf_camera R)
    (transform : sf_transform R) (texture : sf_texture R) :
    ∃ (delta : GLTrace R) (shader' : sf_shader) (result : Except sf_draw_err Unit),
      sf_mesh_draw L float_to_int driver gl mesh (some shader) camera transform texture
        = (gl ++ delta, some shader', result) ∧
      (sf_uniform_resolve driver shader "m_projection" = none →
        result = .error ⟨.SF_DRAW_UNKNOWN_UNIFORM, "m_projection"⟩ ∧ gl_effects delta = []) ∧
      (∀ a, sf_uniform_resolve driver shader "m_projection" = some a →
        sf_uniform_resolve driver shader "m_campos" = none →
        result = .error ⟨.SF_DRAW_UNKNOWN_UNIFORM, "m_campos"⟩ ∧
        gl_effects delta = [.glUniformMatrix4fv a 1 false (sf_mesh_draw_projection camera)]) ∧
      (∀ a b, sf_uniform_resolve driver shader "m_projection" = some a →
        sf_uniform_resolve driver shader "m_campos" = some b →
        sf_uniform_resolve driver shader "m_model" = none →
        result = .error ⟨.SF_DRAW_UNKNOWN_UNIFORM, "m_model"⟩ ∧
        gl_effects delta = [.glUniformMatrix4fv a 1 false (sf_mesh_draw_projection camera),
          .glUniformMatrix4fv b 1 false (sf_mesh_draw_campos L camera)]) ∧
      (∀ a b c, sf_uniform_resolve driver shader "m_projection" = some a →
        sf_uniform_resolve driver shader "m_campos" = some b →
        sf_uniform_resolve driver shader "m_model" = some c →
        sf_uniform_resolve driver shader "t_sampler" = none →
        result = .error ⟨.SF_DRAW_UNKNOWN_UNIFORM, "t_sampler"⟩ ∧
        gl_effects delta = [.glUniformMatrix4fv a 1 false (sf_mesh_draw_projection camera),
          .glUniformMatrix4fv b 1 false (sf_mesh_draw_campos L camera),
          .glUniformMatrix4fv c 1 false (sf_transform_model L transform)]) ∧
      (result = .ok () ↔
        (sf_uniform_resolve driver shader "m_projection").isSome ∧
        (sf_uniform_resolve driver shader "m_campos").isSome ∧
        (sf_uniform_resolve driver shader "m_model").isSome ∧
        (sf_uniform_resolve driver shader "t_sampler").isSome) := by
  have hproj : (if camera.type = .SF_CAMERA_RENDER_DEFAULT
           then sf_shader_uniform_mat4 driver (sf_shader_bind gl shader) shader "m_projection"
              glm_mat4_identity
           else sf_shader_uniform_mat4 driver (sf_shader_bind gl shader) shader "m_projection"
              camera.projection)
        = sf_shader_uniform_mat4 driver (sf_shader_bind gl shader) shader "m_projection"
            (sf_mesh_draw_projection camera) := by
    unfold sf_mesh_draw_projection
    split <;> rfl
  simp only [sf_mesh_draw, hproj]
  cases hp : sf_uniform_resolve driver shader "m_projection" with
  | none =>
    obtain ⟨d1, s1, he1, hi1, hs1⟩ :=
      sf_shader_uniform_mat4_none driver (sf_shader_bind gl shader) shader "m_projection"
        (sf_mesh_draw_projection camera) hp
    rw [hs1]
    refine ⟨[.glUseProgram shader.program] ++ d1, s1,
      .error ⟨.SF_DRAW_UNKNOWN_UNIFORM, "m_projection"⟩, by simp [sf_shader_bind], ?_⟩
    simp [gl_effects_append, he1, gl_effects_glUseProgram, gl_effects_glUniformMatrix4fv,
            gl_effects_glUniform1i, gl_effects_nil]
  | some a =>
    obtain ⟨d1, s1, he1, hi1, hs1⟩ :=
      sf_shader_uniform_mat4_some driver (sf_shader_bind gl shader) shader "m_projection"
        (sf_mesh_draw_projection camera) a hp
    rw [hs1]
    simp only []
    cases hc : sf_uniform_resolve driver shader "m_campos" with
    | none =>
      obtain ⟨d2, s2, he2, hi2, hs2⟩ :=
        sf_shader_uniform_mat4_none driver
          (sf_shader_bind gl shader ++ (d1 ++ [.glUniformMatrix4fv a 1 false
            (sf_mesh_draw_projection camera)])) s1 "m_campos"
          (sf_mesh_draw_campos L camera) ((hi1 _).trans hc)
      rw [hs2]
      refine ⟨[.glUseProgram shader.program] ++ (d1 ++ [.glUniformMatrix4fv a 1 false
            (sf_mesh_draw_projection camera)]) ++ d2, s2,
        .error ⟨.SF_DRAW_UNKNOWN_UNIFORM, "m_campos"⟩, by simp [sf_shader_bind], ?_⟩
      simp [gl_effects_append, he1, he2, gl_effects_glUseProgram, gl_effects_glUniformMatrix4fv,
            gl_effects_glUniform1i, gl_effects_nil]
    | some b =>
      obtain ⟨d2, s2, he2, hi2, hs2⟩ :=
        sf_shader_uniform_mat4_some driver
          (sf_shader_bind gl shader ++ (d1 ++ [.glUniformMatrix4fv a 1 false
            (sf_mesh_draw_projection camera)])) s1 "m_campos"
          (sf_mesh_draw_campos L camera) b ((hi1 _).trans hc)
      rw [hs2]
      simp only []
      have hi12 : ∀ n, sf_uniform_resolve driver s2 n = sf_uniform_resolve driver shader n :=
        fun n => (hi2 n).trans (hi1 n)
      cases hm : sf_uniform_resolve driver shader "m_model" with
      | none =>
        obtain ⟨d3, s3, he3, hi3, hs3⟩ :=
          sf_shader_uniform_mat4_none driver
            (sf_shader_bind gl shader ++ (d1 ++ [.glUniformMatrix4fv a 1 false
              (sf_mesh_draw_projection camera)]) ++ (d2 ++ [.glUniformMatrix4fv b 1 false
              (sf_mesh_draw_campos L camera)])) s2 "m_model"
            (sf_transform_model L transform) ((hi12 _).trans hm)
        rw [hs3]
        refine ⟨[.glUseProgram shader.program] ++ (d1 ++ [.glUniformMatrix4fv a 1 false
              (sf_mesh_draw_projection camera)]) ++ (d2 ++ [.glUniformMatrix4fv b 1 false
              (sf_mesh_draw_campos L camera)]) ++ d3, s3,
          .error ⟨.SF_DRAW_UNKNOWN_UNIFORM, "m_model"⟩, by simp [sf_shader_bind], ?_⟩
        simp [gl_effects_append, he1, he2, he3, gl_effects_glUseProgram, gl_effects_glUniformMatrix4fv,
            gl_effects_glUniform1i, gl_effects_nil]
      | some c =>
        obtain ⟨d3, s3, he3, hi3, hs3⟩ :=
          sf_shader_uniform_mat4_some driver
            (sf_shader_bind gl shader ++ (d1 ++ [.glUniformMatrix4fv a 1 false
              (sf_mesh_draw_projection camera)]) ++ (d2 ++ [.glUniformMatrix4fv b 1 false
              (sf_mesh_draw_campos L camera)])) s2 "m_model"
            (sf_transform_model L transform) c ((hi12 _).trans hm)
        rw [hs3]
        simp only []
        have hi123 : ∀ n, sf_uniform_resolve driver s3 n = sf_uniform_resolve driver shader n :=
          fun n => (hi3 n).trans (hi12 n)
        cases ht : sf_uniform_resolve driver shader "t_sampler" with
        | none =>
          obtain ⟨d4, s4, he4, hi4, hs4⟩ :=
            sf_shader_uniform_int_none driver
              (sf_shader_bind gl shader ++ (d1 ++ [.glUniformMatrix4fv a 1 false
                (sf_mesh_draw_projection camera)]) ++ (d2 ++ [.glUniformMatrix4fv b 1 false
                (sf_mesh_draw_campos L camera)]) ++ (d3 ++ [.glUniformMatrix4fv c 1 false
                (sf_transform_model L transform)])) s3 "t_sampler" 0 ((hi123 _).trans ht)
          rw [hs4]
          refine ⟨[.glUseProgram shader.program] ++ (d1 ++ [.glUniformMatrix4fv a 1 false
                (sf_mesh_draw_projection camera)]) ++ (d2 ++ [.glUniformMatrix4fv b 1 false
                (sf_mesh_draw_campos L camera)]) ++ (d3 ++ [.glUniformMatrix4fv c 1 false
                (sf_transform_model L transform)]) ++ d4, s4,
            .error ⟨.SF_DRAW_UNKNOWN_UNIFORM, "t_sampler"⟩, by simp [sf_shader_bind], ?_⟩
          simp [gl_effects_append, he1, he2, he3, he4, gl_effects_glUseProgram, gl_effects_glUniformMatrix4fv,
            gl_effects_glUniform1i, gl_effects_nil]
        | some d =>
          obtain ⟨d4, s4, he4, hi4, hs4⟩ :=
            sf_shader_uniform_int_some driver
              (sf_shader_bind gl shader ++ (d1 ++ [.glUniformMatrix4fv a 1 false
                (sf_mesh_draw_projection camera)]) ++ (d2 ++ [.glUniformMatrix4fv b 1 false
                (sf_mesh_draw_campos L camera)]) ++ (d3 ++ [.glUniformMatrix4fv c 1 false
                (sf_transform_model L transform)])) s3 "t_sampler" 0 d ((hi123 _).trans ht)
          rw [hs4]
          refine ⟨[.glUseProgram shader.program] ++ (d1 ++ [.glUniformMatrix4fv a 1 false
                (sf_mesh_draw_projection camera)]) ++ (d2 ++ [.glUniformMatrix4fv b 1 false
                (sf_mesh_draw_campos L camera)]) ++ (d3 ++ [.glUniformMatrix4fv c 1 false
                (sf_transform_model L transform)]) ++ (d4 ++ [.glUniform1i d 0]) ++
                (sf_mesh_draw_issue float_to_int [] mesh camera texture), s4,
            .ok (), by simp [sf_shader_bind, sf_mesh_draw_issue], ?_⟩
          simp


end draw_theorems

/-- C10 at a shader whose program lacks only `m_campos`, drawing one triangle to
the default render target: the call fails with `m_campos` after it has written
`m_projection`, and it has written, bound and drawn nothing else. -/
theorem sf_mesh_draw_fail_fast_witness :
    (sf_mesh_draw (Libm.mk Real.cos Real.sin Real.sqrt Real.pi)
        (fun x => if 0 ≤ x then ⌊x⌋ else ⌈x⌉) driver_without_campos []
        ((quad.take 3).foldl sf_mesh_add_vertex_step fresh_mesh) (some fresh_shader)
        ⟨.SF_CAMERA_RENDER_DEFAULT, .mk ⟨0, 0, 0⟩ ⟨0, 0, 0⟩ ⟨1, 1, 1⟩ none,
          glm_mat4_identity, ⟨1280, 720⟩, 0, ⟨12, 12, 12, 255⟩⟩
        (.mk ⟨0, 0, 0⟩ ⟨0, 0, 0⟩ ⟨5, 5, 5⟩ none)
        ⟨.SF_TEXTURE_RGBA, 1, ⟨64, 64⟩⟩).2.2
      = .error ⟨.SF_DRAW_UNKNOWN_UNIFORM, "m_campos"⟩ ∧
    gl_effects (sf_mesh_draw (Libm.mk Real.cos Real.sin Real.sqrt Real.pi)
        (fun x => if 0 ≤ x then ⌊x⌋ else ⌈x⌉) driver_without_campos []
        ((quad.take 3).foldl sf_mesh_add_vertex_step fresh_mesh) (some fresh_shader)
        ⟨.SF_CAMERA_RENDER_DEFAULT, .mk ⟨0, 0, 0⟩ ⟨0, 0, 0⟩ ⟨1, 1, 1⟩ none,
          glm_mat4_identity, ⟨1280, 720⟩, 0, ⟨12, 12, 12, 255⟩⟩
        (.mk ⟨0, 0, 0⟩ ⟨0, 0, 0⟩ ⟨5, 5, 5⟩ none)
        ⟨.SF_TEXTURE_RGBA, 1, ⟨64, 64⟩⟩).1
      = [.glUniformMatrix4fv 0 1 false glm_mat4_identity] := by
  obtain ⟨delta, shader', result, heq, _, h2, _⟩ :=
    sf_mesh_draw_fail_fast (Libm.mk Real.cos Real.sin Real.sqrt Real.pi)
      (fun x => if 0 ≤ x then ⌊x⌋ else ⌈x⌉) driver_without_campos []
      ((quad.take 3).foldl sf_mesh_add_vertex_step fresh_mesh) fresh_shader
      ⟨.SF_CAMERA_RENDER_DEFAULT, .mk ⟨0, 0, 0⟩ ⟨0, 0, 0⟩ ⟨1, 1, 1⟩ none,
        glm_mat4_identity, ⟨1280, 720⟩, 0, ⟨12, 12, 12, 255⟩⟩
      (.mk ⟨0, 0, 0⟩ ⟨0, 0, 0⟩ ⟨5, 5, 5⟩ none)
      ⟨.SF_TEXTURE_RGBA, 1, ⟨64, 64⟩⟩
  have hp : sf_uniform_resolve driver_without_campos fresh_shader "m_projection" = some 0 := by
    decide
  have hc : sf_uniform_resolve driver_without_campos fresh_shader "m_campos" = none := by
    decide
  rw [heq]
  simpa [sf_mesh_draw_projection] using h2 0 hp hc

/-! ## The draw call without a shader -/

/-- C11: `sf_mesh_draw` called with `shader == NULL` returns the error
`SF_DRAW_SHADER_MISSING` and makes no GL call: the trace it returns is the
trace it was given, for every mesh, camera, transform and texture. -/
theorem sf_mesh_draw_null_shader {R : Type} [Field R] [DecidableEq R] (L : Libm R)
    (float_to_int : R → Int) (driver : GLDriver) (gl : GLTrace R) (mesh : sf_mesh)
    (camera : sf_camera R) (transform : sf_transform R) (texture : sf_texture R) :
    sf_mesh_draw L float_to_int driver gl mesh none camera transform texture
      = (gl, none, .error ⟨.SF_DRAW_SHADER_MISSING, SF_STR_EMPTY⟩) := rfl

/-! ## The uniform cache: misses and permanence -/

theorem sf_map_set_of_get_none {K V : Type} (EQUAL_FN : K → K → Bool) (m : sf_map K V) (k : K)
    (v : V) (h : sf_map_get EQUAL_FN m k = none) :
    sf_map_set EQUAL_FN m k v = m ++ [(k, v)] := by
  induction m with
  | nil => rfl
  | cons e rest ih =>
    obtain ⟨k0, v0⟩ := e
    by_cases hk : EQUAL_FN k0 k = true
    · simp [sf_map_get, hk] at h
    · simp only [sf_map_get, hk] at h
      simp [sf_map_set, hk, ih h]

theorem sf_map_get_append {K V : Type} (EQUAL_FN : K → K → Bool) (m extra : sf_map K V) (k : K)
    (v : V) (h : sf_map_get EQUAL_FN m k = some v) :
    sf_map_get EQUAL_FN (m ++ extra) k = some v := by
  induction m with
  | nil => simp [sf_map_get] at h
  | cons e rest ih =>
    obtain ⟨k0, v0⟩ := e
    by_cases hk : EQUAL_FN k0 k = true
    · simpa [sf_map_get, hk] using h
    · simp only [sf_map_get, hk] at h
      simpa [sf_map_get, hk] using ih h

/-- A resolve whose name is already cached returns the cached location and
makes one call only, `glUseProgram`; the driver is not queried. -/
theorem sf_get_uniform_of_cached {R : Type} (driver : GLDriver) (gl : GLTrace R)
    (shader : sf_shader) (name : String) (loc : Int)
    (h : sf_uniform_map_get shader.uniforms name = some loc) :
    sf_get_uniform driver gl shader name
      = (gl ++ [.glUseProgram shader.program], shader, some loc) := by
  simp [sf_get_uniform, h, sf_shader_bind]

/-- A resolve appends at most one entry to the uniform map and keeps the rest. -/
theorem sf_get_uniform_grows {R : Type} (driver : GLDriver) (gl : GLTrace R)
    (shader : sf_shader) (name : String) :
    ∃ extra, (sf_get_uniform driver gl shader name).2.1.uniforms = shader.uniforms ++ extra := by
  unfold sf_get_uniform
  cases hget : sf_uniform_map_get shader.uniforms name with
  | some ok => exact ⟨[], by simp⟩
  | none =>
    by_cases hloc : driver.glGetUniformLocation shader.program name < 0
    · exact ⟨[], by simp [hloc]⟩
    · refine ⟨[(name, driver.glGetUniformLocation shader.program name)], ?_⟩
      simp only [hloc, if_false]
      exact sf_map_set_of_get_none sf_str_eq _ _ _ hget

/-- After a resolve that succeeds, the name is in the uniform map with the
location that was returned. -/
theorem sf_get_uniform_caches {R : Type} (driver : GLDriver) (gl : GLTrace R)
    (shader : sf_shader) (name : String) (loc : Int)
    (h : (sf_get_uniform driver gl shader name).2.2 = some loc) :
    sf_uniform_map_get (sf_get_uniform driver gl shader name).2.1.uniforms name = some loc := by
  unfold sf_get_uniform at h ⊢
  cases hget : sf_uniform_map_get shader.uniforms name with
  | some ok =>
    simp only [hget] at h ⊢
    simpa [hget] using h
  | none =>
    by_cases hloc : driver.glGetUniformLocation shader.program name < 0
    · simp [hget, hloc] at h
    · simp only [hget, hloc, if_false] at h ⊢
      simp only [Option.some.injEq] at h
      rw [← h]
      exact sf_uniform_map_get_set_self _ _ _

theorem sf_shader_uniform_float_shader {R : Type} (driver : GLDriver) (gl : GLTrace R)
    (shader : sf_shader) (name : String) (value : R) :
    (sf_shader_uniform_float driver gl shader name value).2.1
      = (sf_get_uniform driver gl shader name).2.1 := by
  unfold sf_shader_uniform_float
  generalize sf_get_uniform driver gl shader name = x
  rcases x with ⟨g, sh, (_ | _)⟩ <;> rfl

theorem sf_shader_uniform_int_shader {R : Type} (driver : GLDriver) (gl : GLTrace R)
    (shader : sf_shader) (name : String) (value : Int) :
    (sf_shader_uniform_int driver gl shader name value).2.1
      = (sf_get_uniform driver gl shader name).2.1 := by
  unfold sf_shader_uniform_int
  generalize sf_get_uniform driver gl shader name = x
  rcases x with ⟨g, sh, (_ | _)⟩ <;> rfl

theorem sf_shader_uniform_vec2_shader {R : Type} (driver : GLDriver) (gl : GLTrace R)
    (shader : sf_shader) (name : String) (value : sf_vec2 R) :
    (sf_shader_uniform_vec2 driver gl shader name value).2.1
      = (sf_get_uniform driver gl shader name).2.1 := by
  unfold sf_shader_uniform_vec2
  generalize sf_get_uniform driver gl shader name = x
  rcases x with ⟨g, sh, (_ | _)⟩ <;> rfl

theorem sf_shader_uniform_vec3_shader {R : Type} (driver : GLDriver) (gl : GLTrace R)
    (shader : sf_shader) (name : String) (value : sf_vec3 R) :
    (sf_shader_uniform_vec3 driver gl shader name value).2.1
      = (sf_get_uniform driver gl shader name).2.1 := by
  unfold sf_shader_uniform_vec3
  generalize sf_get_uniform driver gl shader name = x
  rcases x with ⟨g, sh, (_ | _)⟩ <;> rfl

theorem sf_shader_uniform_mat4_shader {R : Type} (driver : GLDriver) (gl : GLTrace R)
    (shader : sf_shader) (name : String) (value : mat4 R) :
    (sf_shader_uniform_mat4 driver gl shader name value).2.1
      = (sf_get_uniform driver gl shader name).2.1 := by
  unfold sf_shader_uniform_mat4
  generalize sf_get_uniform driver gl shader name = x
  rcases x with ⟨g, sh, (_ | _)⟩ <;> rfl

/-- One call of the uniform interface keeps every entry of the uniform map. -/
theorem sf_uniform_call_run_grows {R : Type} (driver : GLDriver) (gl : GLTrace R)
    (shader : sf_shader) (call : sf_uniform_call R) :
    ∃ extra, (call.run driver gl shader).2.uniforms = shader.uniforms ++ extra := by
  cases call with
  | get_uniform name => exact sf_get_uniform_grows driver gl shader name
  | uniform_float name value =>
    simp only [sf_uniform_call.run, sf_shader_uniform_float_shader]
    exact sf_get_uniform_grows driver gl shader name
  | uniform_int name value =>
    simp only [sf_uniform_call.run, sf_shader_uniform_int_shader]
    exact sf_get_uniform_grows driver gl shader name
  | uniform_vec2 name value =>
    simp only [sf_uniform_call.run, sf_shader_uniform_vec2_shader]
    exact sf_get_uniform_grows driver gl shader name
  | uniform_vec3 name value =>
    simp only [sf_uniform_call.run, sf_shader_uniform_vec3_shader]
    exact sf_get_uniform_grows driver gl shader name
  | uniform_mat4 name value =>
    simp only [sf_uniform_call.run, sf_shader_uniform_mat4_shader]
    exact sf_get_uniform_grows driver gl shader name

/-- Any sequence of calls of the uniform interface keeps every entry of the uniform map. -/
theorem sf_uniform_calls_run_grows {R : Type} (driver : GLDriver)
    (calls : List (sf_uniform_call R)) :
    ∀ (gl : GLTrace R) (shader : sf_shader),
      ∃ extra, (sf_uniform_calls_run driver gl shader calls).2.uniforms
        = shader.uniforms ++ extra := by
  induction calls with
  | nil => intro gl shader; exact ⟨[], by simp [sf_uniform_calls_run]⟩
  | cons call rest ih =>
    intro gl shader
    obtain ⟨e1, h1⟩ := sf_uniform_call_run_grows driver gl shader call
    obtain ⟨e2, h2⟩ := ih (call.run driver gl shader).1 (call.run driver gl shader).2
    refine ⟨e1 ++ e2, ?_⟩
    rw [sf_uniform_calls_run, h2, h1, List.append_assoc]

/-- C12: when a uniform name is not in the shader's cache and the driver reports
no location for it (`glGetUniformLocation < 0`), `sf_get_uniform` returns the
error result and every `sf_shader_uniform_*` setter returns the unknown-uniform
error, making no uniform write; the shader, with its uniform map, is unchanged,
so the negative result is not cached and a second lookup of the same name
queries the driver again. -/
theorem sf_get_uniform_negative_not_cached {R : Type} (driver : GLDriver) (gl : GLTrace R)
    (shader : sf_shader) (name : String)
    (hmiss : sf_uniform_map_get shader.uniforms name = none)
    (hloc : driver.glGetUniformLocation shader.program name < 0) :
    sf_get_uniform driver gl shader name
      = (gl ++ [.glUseProgram shader.program, .glGetUniformLocation shader.program name],
          shader, none) ∧
    sf_get_uniform driver (sf_get_uniform driver gl shader name).1
        (sf_get_uniform driver gl shader name).2.1 name
      = (gl ++ [.glUseProgram shader.program, .glGetUniformLocation shader.program name,
            .glUseProgram shader.program, .glGetUniformLocation shader.program name],
          shader, none) ∧
    (∀ value : R, sf_shader_uniform_float driver gl shader name value
      = (gl ++ [.glUseProgram shader.program, .glGetUniformLocation shader.program name],
          shader, .error ⟨.SF_SHADER_UNKNOWN_UNIFORM, SF_STR_EMPTY⟩)) ∧
    (∀ value : Int, sf_shader_uniform_int driver gl shader name value
      = (gl ++ [.glUseProgram shader.program, .glGetUniformLocation shader.program name],
          shader, .error ⟨.SF_SHADER_UNKNOWN_UNIFORM, SF_STR_EMPTY⟩)) ∧
    (∀ value : sf_vec2 R, sf_shader_uniform_vec2 driver gl shader name value
      = (gl ++ [.glUseProgram shader.program, .glGetUniformLocation shader.program name],
          shader, .error ⟨.SF_SHADER_UNKNOWN_UNIFORM, SF_STR_EMPTY⟩)) ∧
    (∀ value : sf_vec3 R, sf_shader_uniform_vec3 driver gl shader name value
      = (gl ++ [.glUseProgram shader.program, .glGetUniformLocation shader.program name],
          shader, .error ⟨.SF_SHADER_UNKNOWN_UNIFORM, SF_STR_EMPTY⟩)) ∧
    (∀ value : mat4 R, sf_shader_uniform_mat4 driver gl shader name value
      = (gl ++ [.glUseProgram shader.program, .glGetUniformLocation shader.program name],
          shader, .error ⟨.SF_SHADER_UNKNOWN_UNIFORM, SF_STR_EMPTY⟩)) := by
  have h1 : sf_get_uniform driver gl shader name
      = (gl ++ [.glUseProgram shader.program, .glGetUniformLocation shader.program name],
          shader, none) := by
    simp [sf_get_uniform, hmiss, hloc, sf_shader_bind]
  have h2 : ∀ g : GLTrace R, sf_get_uniform driver g shader name
      = (g ++ [.glUseProgram shader.program, .glGetUniformLocation shader.program name],
          shader, none) := by
    intro g
    simp [sf_get_uniform, hmiss, hloc, sf_shader_bind]
  refine ⟨h1, ?_, ?_, ?_, ?_, ?_, ?_⟩
  · rw [h1]
    simp [h2]
  · intro value; simp [sf_shader_uniform_float, h1]
  · intro value; simp [sf_shader_uniform_int, h1]
  · intro value; simp [sf_shader_uniform_vec2, h1]
  · intro value; simp [sf_shader_uniform_vec3, h1]
  · intro value; simp [sf_shader_uniform_mat4, h1]

/-- C12 at the shader whose program lacks `m_campos`. -/
theorem sf_get_uniform_negative_not_cached_witness :
    (sf_uniform_map_get fresh_shader.uniforms "m_campos" = none ∧
      driver_without_campos.glGetUniformLocation fresh_shader.program "m_campos" < 0) ∧
    sf_get_uniform driver_without_campos ([] : GLTrace ℚ) fresh_shader "m_campos"
      = ([] ++ [.glUseProgram fresh_shader.program,
            .glGetUniformLocation fresh_shader.program "m_campos"],
          fresh_shader, none) :=
  ⟨⟨by decide, by decide⟩,
    (sf_get_uniform_negative_not_cached driver_without_campos ([] : GLTrace ℚ) fresh_shader
      "m_campos" (by decide) (by decide)).1⟩

/-- C13: once `sf_get_uniform` has resolved a name to a location for a shader,
then after any sequence of further resolves and setter calls on that shader a
resolve of the name returns the same location and makes no call but
`glUseProgram` (the driver is not queried); and any sequence of resolves and
setter calls, on any shader, leaves the uniform map equal to the old map
followed by new entries, so no entry is removed or changed. -/
theorem sf_uniform_cache_permanent {R : Type} (driver : GLDriver) (gl0 : GLTrace R)
    (shader : sf_shader) (name : String) (loc : Int)
    (hres : (sf_get_uniform driver gl0 shader name).2.2 = some loc)
    (calls : List (sf_uniform_call R)) (gl1 gl2 : GLTrace R) :
    sf_get_uniform driver gl2
        (sf_uniform_calls_run driver gl1 (sf_get_uniform driver gl0 shader name).2.1 calls).2 name
      = (gl2 ++ [.glUseProgram
            (sf_uniform_calls_run driver gl1
              (sf_get_uniform driver gl0 shader name).2.1 calls).2.program],
          (sf_uniform_calls_run driver gl1 (sf_get_uniform driver gl0 shader name).2.1 calls).2,
          some loc) ∧
    ∀ (gl : GLTrace R) (sh : sf_shader) (cs : List (sf_uniform_call R)),
      ∃ extra, (sf_uniform_calls_run driver gl sh cs).2.uniforms = sh.uniforms ++ extra := by
  constructor
  · apply sf_get_uniform_of_cached
    obtain ⟨extra, hextra⟩ :=
      sf_uniform_calls_run_grows driver calls gl1 (sf_get_uniform driver gl0 shader name).2.1
    rw [hextra]
    exact sf_map_get_append sf_str_eq _ _ _ _ (sf_get_uniform_caches driver gl0 shader name loc hres)
  · intro gl sh cs
    exact sf_uniform_calls_run_grows driver cs gl sh

/-- C13 at `m_model`: resolved once, then looked up again after a failed
`m_campos` write and a `t_sampler` write. -/
theorem sf_uniform_cache_permanent_witness :
    (sf_get_uniform driver_without_campos ([] : GLTrace ℚ) fresh_shader "m_model").2.2 = some 2 ∧
    (sf_get_uniform driver_without_campos ([] : GLTrace ℚ)
        (sf_uniform_calls_run driver_without_campos ([] : GLTrace ℚ)
          (sf_get_uniform driver_without_campos ([] : GLTrace ℚ) fresh_shader "m_model").2.1
          [.uniform_mat4 "m_campos" (glm_mat4_identity : mat4 ℚ), .uniform_int "t_sampler" 0]).2
        "m_model").2.2 = some 2 := by
  have h := (sf_uniform_cache_permanent driver_without_campos ([] : GLTrace ℚ) fresh_shader
    "m_model" 2 (by decide)
    [.uniform_mat4 "m_campos" (glm_mat4_identity : mat4 ℚ), .uniform_int "t_sampler" 0] [] []).1
  exact ⟨by decide, by rw [h]⟩

/-! ## The draw call when every uniform resolves -/

theorem sf_mesh_draw_issue_eq_append {R : Type} (float_to_int : R → Int) (gl : GLTrace R)
    (mesh : sf_mesh) (camera : sf_camera R) (texture : sf_texture R) :
    sf_mesh_draw_issue float_to_int gl mesh camera texture
      = gl ++ sf_mesh_draw_issue float_to_int [] mesh camera texture := by
  simp [sf_mesh_draw_issue]

theorem gl_effects_sf_mesh_draw_issue {R : Type} (float_to_int : R → Int)
    (mesh : sf_mesh) (camera : sf_camera R) (texture : sf_texture R) :
    gl_effects (sf_mesh_draw_issue float_to_int [] mesh camera texture)
      = sf_mesh_draw_issue float_to_int [] mesh camera texture := rfl

/-- After the binds, the draw and the unbinds of `sf_mesh_draw`, vertex array 0
is bound, whatever was bound before. -/
theorem gl_bound_vertex_array_issue {R : Type} (float_to_int : R → Int) (pre : GLTrace R)
    (mesh : sf_mesh) (camera : sf_camera R) (texture : sf_texture R) :
    gl_bound_vertex_array (pre ++ sf_mesh_draw_issue float_to_int [] mesh camera texture) = 0 := by
  simp [gl_bound_vertex_array, sf_mesh_draw_issue, List.foldl_append]

/-- After the binds, the draw and the unbinds of `sf_mesh_draw`, framebuffer 0
is bound, whatever was bound before. -/
theorem gl_bound_framebuffer_issue {R : Type} (float_to_int : R → Int) (pre : GLTrace R)
    (mesh : sf_mesh) (camera : sf_camera R) (texture : sf_texture R) :
    gl_bound_framebuffer (pre ++ sf_mesh_draw_issue float_to_int [] mesh camera texture) = 0 := by
  simp [gl_bound_framebuffer, sf_mesh_draw_issue, List.foldl_append]

section draw_success
variable {R : Type} [Field R] [DecidableEq R]

/-- C14: for a non-null shader on which all four uniforms resolve,
`sf_mesh_draw` returns Ok, and the calls it made that change GL state are, in
this order: the four uniform writes, then bind the camera's framebuffer, set
the viewport to (0, 0, camera viewport x, camera viewport y) converted to
`int`, activate texture unit 0, bind the texture's handle, bind the mesh's
vertex array, one `glDrawElements(GL_TRIANGLES)` whose count is the length of
the mesh's index buffer, bind vertex array 0, bind framebuffer 0. On return the
bound vertex array and the bound framebuffer are both 0. -/
theorem sf_mesh_draw_success_sequence (L : Libm R) (float_to_int : R → Int)
    (driver : GLDriver) (gl : GLTrace R) (mesh : sf_mesh) (shader : sf_shader)
    (camera : sf_camera R) (transform : sf_transform R) (texture : sf_texture R)
    (a b c d : Int)
    (hp : sf_uniform_resolve driver shader "m_projection" = some a)
    (hc : sf_uniform_resolve driver shader "m_campos" = some b)
    (hm : sf_uniform_resolve driver shader "m_model" = some c)
    (ht : sf_uniform_resolve driver shader "t_sampler" = some d) :
    ∃ (delta : GLTrace R) (shader' : sf_shader),
      sf_mesh_draw L float_to_int driver gl mesh (some shader) camera transform texture
        = (gl ++ delta, some shader', .ok ()) ∧
      gl_effects delta
        = [.glUniformMatrix4fv a 1 false (sf_mesh_draw_projection camera),
           .glUniformMatrix4fv b 1 false (sf_mesh_draw_campos L camera),
           .glUniformMatrix4fv c 1 false (sf_transform_model L transform),
           .glUniform1i d 0,
           .glBindFramebuffer .GL_FRAMEBUFFER camera.framebuffer,
           .glViewport 0 0 (float_to_int camera.viewport.x) (float_to_int camera.viewport.y),
           .glActiveTexture .GL_TEXTURE0,
           .glBindTexture .GL_TEXTURE_2D texture.handle,
           .glBindVertexArray mesh.vao,
           .glDrawElements .GL_TRIANGLES mesh.indices.length .GL_UNSIGNED_INT 0,
           .glBindVertexArray 0,
           .glBindFramebuffer .GL_FRAMEBUFFER 0] ∧
      gl_bound_vertex_array (gl ++ delta) = 0 ∧
      gl_bound_framebuffer (gl ++ delta) = 0 := by
  have hproj : (if camera.type = .SF_CAMERA_RENDER_DEFAULT
           then sf_shader_uniform_mat4 driver (sf_shader_bind gl shader) shader "m_projection"
              glm_mat4_identity
           else sf_shader_uniform_mat4 driver (sf_shader_bind gl shader) shader "m_projection"
              camera.projection)
        = sf_shader_uniform_mat4 driver (sf_shader_bind gl shader) shader "m_projection"
            (sf_mesh_draw_projection camera) := by
    unfold sf_mesh_draw_projection
    split <;> rfl
  simp only [sf_mesh_draw, hproj]
  obtain ⟨d1, s1, he1, hi1, hs1⟩ :=
    sf_shader_uniform_mat4_some driver (sf_shader_bind gl shader) shader "m_projection"
      (sf_mesh_draw_projection camera) a hp
  rw [hs1]
  simp only []
  obtain ⟨d2, s2, he2, hi2, hs2⟩ :=
    sf_shader_uniform_mat4_some driver
      (sf_shader_bind gl shader ++ (d1 ++ [.glUniformMatrix4fv a 1 false
        (sf_mesh_draw_projection camera)])) s1 "m_campos"
      (sf_mesh_draw_campos L camera) b ((hi1 _).trans hc)
  rw [hs2]
  simp only []
  obtain ⟨d3, s3, he3, hi3, hs3⟩ :=
    sf_shader_uniform_mat4_some driver
      (sf_shader_bind gl shader ++ (d1 ++ [.glUniformMatrix4fv a 1 false
        (sf_mesh_draw_projection camera)]) ++ (d2 ++ [.glUniformMatrix4fv b 1 false
        (sf_mesh_draw_campos L camera)])) s2 "m_model"
      (sf_transform_model L transform) c (((hi2 _).trans (hi1 _)).trans hm)
  rw [hs3]
  simp only []
  obtain ⟨d4, s4, he4, hi4, hs4⟩ :=
    sf_shader_uniform_int_some driver
      (sf_shader_bind gl shader ++ (d1 ++ [.glUniformMatrix4fv a 1 false
        (sf_mesh_draw_projection camera)]) ++ (d2 ++ [.glUniformMatrix4fv b 1 false
        (sf_mesh_draw_campos L camera)]) ++ (d3 ++ [.glUniformMatrix4fv c 1 false
        (sf_transform_model L transform)])) s3 "t_sampler" 0 d
      (((hi3 _).trans ((hi2 _).trans (hi1 _))).trans ht)
  rw [hs4]
  simp only []
  rw [sf_mesh_draw_issue_eq_append]
  refine ⟨([.glUseProgram shader.program] ++ (d1 ++ [.glUniformMatrix4fv a 1 false
        (sf_mesh_draw_projection camera)]) ++ (d2 ++ [.glUniformMatrix4fv b 1 false
        (sf_mesh_draw_campos L camera)]) ++ (d3 ++ [.glUniformMatrix4fv c 1 false
        (sf_transform_model L transform)]) ++ (d4 ++ [.glUniform1i d 0])) ++
        sf_mesh_draw_issue float_to_int [] mesh camera texture, s4, ?_, ?_, ?_, ?_⟩
  · simp [sf_shader_bind]
  · rw [gl_effects_append, gl_effects_sf_mesh_draw_issue]
    simp [gl_effects_append, he1, he2, he3, he4, gl_effects_glUseProgram,
      gl_effects_glUniformMatrix4fv, gl_effects_glUniform1i, gl_effects_nil, sf_mesh_draw_issue]
  · rw [← List.append_assoc]
    exact gl_bound_vertex_array_issue float_to_int _ mesh camera texture
  · rw [← List.append_assoc]
    exact gl_bound_framebuffer_issue float_to_int _ mesh camera texture

end draw_success

/-- C14 at a shader whose program declares all four uniforms, drawing one
triangle to the default render target. -/
theorem sf_mesh_draw_success_sequence_witness :
    (sf_uniform_resolve driver_with_all_uniforms fresh_shader "m_projection" = some 0 ∧
      sf_uniform_resolve driver_with_all_uniforms fresh_shader "m_campos" = some 1 ∧
      sf_uniform_resolve driver_with_all_uniforms fresh_shader "m_model" = some 2 ∧
      sf_uniform_resolve driver_with_all_uniforms fresh_shader "t_sampler" = some 3) ∧
    (sf_mesh_draw (Libm.mk Real.cos Real.sin Real.sqrt Real.pi)
        (fun x => if 0 ≤ x then ⌊x⌋ else ⌈x⌉) driver_with_all_uniforms []
        ((quad.take 3).foldl sf_mesh_add_vertex_step fresh_mesh) (some fresh_shader)
        ⟨.SF_CAMERA_RENDER_DEFAULT, .mk ⟨0, 0, 0⟩ ⟨0, 0, 0⟩ ⟨1, 1, 1⟩ none,
          glm_mat4_identity, ⟨1280, 720⟩, 0, ⟨12, 12, 12, 255⟩⟩
        (.mk ⟨0, 0, 0⟩ ⟨0, 0, 0⟩ ⟨5, 5, 5⟩ none)
        ⟨.SF_TEXTURE_RGBA, 1, ⟨64, 64⟩⟩).2.2 = .ok () := by
  obtain ⟨delta, shader', heq, _⟩ :=
    sf_mesh_draw_success_sequence (Libm.mk Real.cos Real.sin Real.sqrt Real.pi)
      (fun x => if 0 ≤ x then ⌊x⌋ else ⌈x⌉) driver_with_all_uniforms []
      ((quad.take 3).foldl sf_mesh_add_vertex_step fresh_mesh) fresh_shader
      ⟨.SF_CAMERA_RENDER_DEFAULT, .mk ⟨0, 0, 0⟩ ⟨0, 0, 0⟩ ⟨1, 1, 1⟩ none,
        glm_mat4_identity, ⟨1280, 720⟩, 0, ⟨12, 12, 12, 255⟩⟩
      (.mk ⟨0, 0, 0⟩ ⟨0, 0, 0⟩ ⟨5, 5, 5⟩ none)
      ⟨.SF_TEXTURE_RGBA, 1, ⟨64, 64⟩⟩ 0 1 2 3 (by decide) (by decide) (by decide) (by decide)
  exact ⟨⟨by decide, by decide, by decide, by decide⟩, by rw [heq]⟩

/-! ## The identity transform -/

/-- C15: `sf_transform_model` of the transform with position (0,0,0), rotation
(0,0,0), scale (1,1,1) and no parent is exactly the 4x4 identity matrix. -/
theorem sf_transform_model_identity {R : Type} [Field R] [DecidableEq R] (L : Libm R)
    (hsqrt : L.sqrtf 1 = 1) (hcos : L.cosf 0 = 1) (hsin : L.sinf 0 = 0) :
    sf_transform_model L (.mk ⟨0, 0, 0⟩ ⟨0, 0, 0⟩ ⟨1, 1, 1⟩ none) = glm_mat4_identity := by
  simp [sf_transform_model, glm_rotate, glm_rotate_make_x L hsqrt, glm_rotate_make_y L hsqrt,
    glm_rotate_make_z L hsqrt, glm_rad, hcos, hsin, glm_mat4_copy, glm_translate, glm_mul_rot,
    glm_scale, glm_mat4_identity, glm_vec4_scale, glm_vec4_muladds]

/-- C15 with the real cosine, sine and square root. -/
theorem sf_transform_model_identity_witness :
    (Real.sqrt 1 = 1 ∧ Real.cos 0 = 1 ∧ Real.sin 0 = 0) ∧
    sf_transform_model (Libm.mk Real.cos Real.sin Real.sqrt Real.pi)
        (.mk ⟨0, 0, 0⟩ ⟨0, 0, 0⟩ ⟨1, 1, 1⟩ none) = glm_mat4_identity :=
  ⟨⟨Real.sqrt_one, Real.cos_zero, Real.sin_zero⟩,
    sf_transform_model_identity (Libm.mk Real.cos Real.sin Real.sqrt Real.pi) Real.sqrt_one
      Real.cos_zero Real.sin_zero⟩

/-! ## Expanding the index buffer -/

/-- C16, evaluated on the code: after the stream `v, v` on a freshly created
mesh, looking up each index in the vertex buffer does reproduce the stream
(indices `[0, 1]`, vertex buffer `[v, v]`), but the vertex buffer holds the
same vertex twice, where the claim has no two byte-equal vertices. -/
theorem sf_mesh_vertex_buffer_has_duplicate {R : Type} (gl : GLTrace R)
    (vao vbo ebo : Nat) (v : sf_vertex) :
    ([v, v].foldl sf_mesh_add_vertex_step (sf_mesh_new gl vao vbo ebo).1).indices.map
        (fun i => ([v, v].foldl sf_mesh_add_vertex_step
          (sf_mesh_new gl vao vbo ebo).1).vertices[i.toNat]?)
      = [some v, some v] ∧
    ([v, v].foldl sf_mesh_add_vertex_step (sf_mesh_new gl vao vbo ebo).1).vertices = [v, v] ∧
    ¬ ([v, v].foldl sf_mesh_add_vertex_step (sf_mesh_new gl vao vbo ebo).1).vertices.Nodup := by
  simp [sf_mesh_new, sf_mesh_add_vertex_step, sf_index_cache_get,
    sf_index_cache_set, sf_map_get, sf_map_set, sf_map_new, sf_vec_push,
    sf_index_cache_EQUAL_FN_self, to_int32, to_uint32]

end Sepgfx
